import Mathlib

/-!
Verification development for the Mochii soft-body physics engine
(src/scripts/physics.ts, physics-worker.ts, physics-types.ts, mochi.ts,
daily.ts).

Embedding conventions.
* JavaScript numbers are embedded as exact rationals (`ℚ`): every numeric
  literal of the source denotes the exact rational its decimal text denotes,
  and `Math.PI` denotes the exact rational value of the IEEE-754 double
  `3.141592653589793...` (884279719003555 / 2^48).
* Transcendental library calls (`Math.sin`, `Math.cos`, `Math.pow` with a
  fractional exponent, `Math.sqrt`) have no exact rational counterpart, so
  functions that use their *values* take a `MathOracle` argument bundling
  those four functions; theorems either hold for every oracle (when the
  property does not depend on the transcendental values) or are evaluated at
  inputs where the stand-in oracle `ratOracle` is exact (perfect squares for
  `Rat.sqrt`, the argument 0, ...), which is noted at each such theorem.
* A source comparison `Math.sqrt a < b` whose square-root value is used
  nowhere else is embedded by the exact equivalence
  `sqrt a < b ↔ 0 < b ∧ a < b * b` (valid for every `a ≥ 0` over the exact
  reals); the helper `sqrtLt` below performs that translation, so the
  affected definitions (`canMerge` of both paths) have exact semantics on
  every rational input.
* In-place mutation of a body is embedded as a function returning the
  updated record; the `events` array that the worker pushes into is embedded
  as a returned list of events.
-/

namespace Mochii

/-- Vertex record, from src/scripts/types.ts (interface Point): position,
velocity and original offset from the body center. -/
structure Point where
  x : ℚ
  y : ℚ
  vx : ℚ
  vy : ℚ
  ox : ℚ
  oy : ℚ
deriving DecidableEq, Repr, Inhabited

/-- Spring record, from src/scripts/types.ts (interface Spring): two vertex
indices, a rest length and a stiffness class. -/
structure Spring where
  p1 : ℕ
  p2 : ℕ
  restLength : ℚ
  stiffness : ℚ
deriving DecidableEq, Repr, Inhabited

/-- Physics configuration, from src/scripts/types.ts (interface
PhysicsConfig). -/
structure PhysicsConfig where
  springStiffness : ℚ
  damping : ℚ
  pressure : ℚ
  gravity : ℚ
  mouseForce : ℚ
  mouseRadius : ℚ
  wallBounce : ℚ
  friction : ℚ
  squishRecovery : ℚ
deriving DecidableEq, Repr, Inhabited

/-- Container bounds, from src/scripts/types.ts (interface Container);
`overflowLine` is the danger-line Y coordinate. -/
structure Container where
  x : ℚ
  y : ℚ
  width : ℚ
  height : ℚ
  wallThickness : ℚ
  overflowLine : ℚ
deriving DecidableEq, Repr, Inhabited

/-- Transport snapshot of one body, from src/scripts/physics-types.ts
(interface SerializedMochi): exactly the physics-relevant fields, no
animation or visual state. -/
structure SMochi where
  id : ℕ
  tier : ℕ
  baseRadius : ℚ
  radius : ℚ
  points : List Point
  springs : List Spring
  cx : ℚ
  cy : ℚ
  vx : ℚ
  vy : ℚ
  isDropping : Bool
  hasLanded : Bool
  merging : Bool
  mergeTimer : ℚ
  settleTimer : ℚ
  squishAmount : ℚ
  wobblePhase : ℚ
  wobbleIntensity : ℚ
  breathPhase : ℚ
  lastY : ℚ
  jitterAmount : ℚ
  prevVx : ℚ
  prevVy : ℚ
deriving Inhabited

/-- Color record of a tier, from src/scripts/types.ts (interface
MochiColor). -/
structure MochiColor where
  primary : String
  secondary : String
  highlight : String
  shadow : String
  cheek : String
deriving DecidableEq, Repr, Inhabited

/-- Full main-thread body record, from src/scripts/types.ts (interface
Mochi): the snapshot fields plus the animation/visual state that stays on
the main thread. -/
structure Mochi where
  id : ℕ
  tier : ℕ
  points : List Point
  springs : List Spring
  cx : ℚ
  cy : ℚ
  vx : ℚ
  vy : ℚ
  radius : ℚ
  baseRadius : ℚ
  color : MochiColor
  grabbed : Bool
  emotion : String
  emotionTimer : ℚ
  squishAmount : ℚ
  impactVelocity : ℚ
  wobblePhase : ℚ
  wobbleIntensity : ℚ
  breathPhase : ℚ
  lastY : ℚ
  merging : Bool
  mergeTimer : ℚ
  isDropping : Bool
  hasLanded : Bool
  settleTimer : ℚ
  blinkTimer : ℚ
  blinkState : ℚ
  lookDirection : ℚ
  lookTimer : ℚ
  idleTimer : ℚ
  jitterAmount : ℚ
  prevVx : ℚ
  prevVy : ℚ
deriving Inhabited

/-- Physics events crossing the worker boundary, from
src/scripts/physics-types.ts (type PhysicsEvent). -/
inductive PEvent where
  | merge (m1Id m2Id : ℕ) (x y : ℚ) (tier : ℕ)
  | landed (mochiId : ℕ) (impactVelocity : ℚ)
  | floorImpact (mochiId : ℕ) (impactVelocity : ℚ)
  | gameOver
deriving DecidableEq, Repr

/-- Oracle bundling the transcendental JavaScript library functions consumed
by the engine: `Math.sin`, `Math.cos`, `Math.pow` and `Math.sqrt`. All other
arithmetic of the source is exact rational arithmetic. -/
structure MathOracle where
  sin : ℚ → ℚ
  cos : ℚ → ℚ
  pow : ℚ → ℚ → ℚ
  sqrt : ℚ → ℚ

/-- Computable stand-in oracle used to evaluate definitions at concrete
inputs. `Rat.sqrt` agrees with the exact real square root on every rational
that is the square of a rational; each theorem evaluated with `ratOracle`
only consults the oracle at such inputs (or does not consult it at all),
which is noted at the theorem. -/
def ratOracle : MathOracle where
  sin := fun _ => 0
  cos := fun _ => 0
  pow := fun _ _ => 0
  sqrt := Rat.sqrt

/-- Exact rational value of the IEEE-754 double `Math.PI`. -/
def piQ : ℚ := 884279719003555 / 281474976710656

/-- Translation of the source comparison `Math.sqrt a < b` when the root
value is used nowhere else: over the exact reals, for `a ≥ 0`,
`Real.sqrt a < b ↔ 0 < b ∧ a < b * b` (see `sqrtLt_eq_real` below), so the
comparison is embedded by squaring and stays exact on every rational
input. -/
def sqrtLt (a b : ℚ) : Bool :=
  decide (0 < b) && decide (a < b * b)

/-- Justification of the `sqrtLt` translation against real semantics. -/
theorem sqrtLt_eq_real (a b : ℚ) :
    sqrtLt a b = true ↔ Real.sqrt (a : ℝ) < (b : ℝ) := by
  unfold sqrtLt
  simp only [Bool.and_eq_true, decide_eq_true_eq]
  constructor
  · rintro ⟨hb, hab⟩
    have hb' : (0 : ℝ) < (b : ℝ) := by exact_mod_cast hb
    rw [Real.sqrt_lt' hb']
    have hab' : (a : ℝ) < (b : ℝ) * (b : ℝ) := by exact_mod_cast hab
    nlinarith
  · intro h
    have hb' : (0 : ℝ) < (b : ℝ) := lt_of_le_of_lt (Real.sqrt_nonneg _) h
    have h2 := (Real.sqrt_lt' hb').mp h
    refine ⟨by exact_mod_cast hb', ?_⟩
    have h3 : (a : ℝ) < (b : ℝ) * (b : ℝ) := by nlinarith
    exact_mod_cast h3

/-- Radii of the 11 tiers of the worker tier table, from
src/scripts/physics-worker.ts (mochiTierData); entry `i` is the base radius
of tier `i`. -/
def mochiTierData : List ℚ := [18, 24, 30, 38, 46, 54, 62, 72, 82, 94, 108]

/-- Radii of the 11 tiers of the main-thread tier table, from
src/scripts/physics.ts (mochiTiers, radius field); the color and score
fields play no role in the physics claims. -/
def mochiTiers : List ℚ := [18, 24, 30, 38, 46, 54, 62, 72, 82, 94, 108]

/-- Worker-path merge test, from src/scripts/physics-worker.ts lines
760-772 (function canMerge): not merging, same tier, below the maximum tier
(`mochiTierData.length - 1`), and center distance below 95% of the summed
base radii. The source comparison `Math.sqrt(dx*dx + dy*dy) < minDist` is
embedded with `sqrtLt` (exact, see `sqrtLt_eq_real`). -/
def canMergeW (m1 m2 : SMochi) : Bool :=
  if m1.merging || m2.merging then false
  else if m1.tier != m2.tier then false
  else if m1.tier ≥ mochiTierData.length - 1 then false
  else
    let dx := m2.cx - m1.cx
    let dy := m2.cy - m1.cy
    let minDist := (m1.baseRadius + m2.baseRadius) * 0.95
    sqrtLt (dx * dx + dy * dy) minDist

/-- Main-thread merge test, from src/scripts/physics.ts lines 890-901
(function canMerge): identical structure to the worker test but with the
tighter 85% distance fraction and the `mochiTiers` table. Stated over the
snapshot fields it reads (`Mochi` and `SerializedMochi` share them). -/
def canMergeM (m1 m2 : SMochi) : Bool :=
  if m1.merging || m2.merging then false
  else if m1.tier != m2.tier then false
  else if m1.tier ≥ mochiTiers.length - 1 then false
  else
    let dx := m2.cx - m1.cx
    let dy := m2.cy - m1.cy
    let minDist := (m1.baseRadius + m2.baseRadius) * 0.85
    sqrtLt (dx * dx + dy * dy) minDist

/-- Spec-side predicate: the centers of `m1` and `m2` are strictly closer
than the fraction `f` of the sum of their base radii, in exact real
semantics (squared form of `dist < (r1 + r2) * f`). -/
def centerDistLt (m1 m2 : SMochi) (f : ℚ) : Prop :=
  0 < (m1.baseRadius + m2.baseRadius) * f ∧
    (m2.cx - m1.cx) * (m2.cx - m1.cx) + (m2.cy - m1.cy) * (m2.cy - m1.cy) <
      (m1.baseRadius + m2.baseRadius) * f * ((m1.baseRadius + m2.baseRadius) * f)

instance (m1 m2 : SMochi) (f : ℚ) : Decidable (centerDistLt m1 m2 f) := by
  unfold centerDistLt; infer_instance

theorem canMergeM_iff (m1 m2 : SMochi) :
    canMergeM m1 m2 = true ↔
      m1.tier = m2.tier ∧ m1.tier < mochiTiers.length - 1 ∧
      m1.merging = false ∧ m2.merging = false ∧ centerDistLt m1 m2 0.85 := by
  unfold canMergeM
  by_cases hm : (m1.merging || m2.merging) = true
  · rw [if_pos hm]
    simp only [Bool.or_eq_true] at hm
    simp only [Bool.false_eq_true, false_iff]
    rintro ⟨-, -, h3, h4, -⟩
    rcases hm with hm | hm
    · rw [h3] at hm; exact Bool.false_ne_true hm
    · rw [h4] at hm; exact Bool.false_ne_true hm
  · rw [if_neg hm]
    rw [Bool.or_eq_true, not_or, Bool.not_eq_true, Bool.not_eq_true] at hm
    by_cases ht : (m1.tier != m2.tier) = true
    · rw [if_pos ht]
      rw [bne_iff_ne] at ht
      simp only [Bool.false_eq_true, false_iff]
      rintro ⟨h1, -⟩; exact ht h1
    · rw [if_neg ht]
      rw [Bool.not_eq_true, bne_eq_false_iff_eq] at ht
      by_cases hb : m1.tier ≥ mochiTiers.length - 1
      · rw [if_pos hb]
        simp only [Bool.false_eq_true, false_iff]
        rintro ⟨-, h2, -⟩; omega
      · rw [if_neg hb]
        simp only [sqrtLt, Bool.and_eq_true, decide_eq_true_eq]
        unfold centerDistLt
        constructor
        · rintro ⟨hpos, hlt⟩
          exact ⟨ht, by omega, hm.1, hm.2, hpos, hlt⟩
        · rintro ⟨-, -, -, -, hpos, hlt⟩
          exact ⟨hpos, hlt⟩

theorem canMergeW_iff (m1 m2 : SMochi) :
    canMergeW m1 m2 = true ↔
      m1.tier = m2.tier ∧ m1.tier < mochiTierData.length - 1 ∧
      m1.merging = false ∧ m2.merging = false ∧ centerDistLt m1 m2 0.95 := by
  unfold canMergeW
  by_cases hm : (m1.merging || m2.merging) = true
  · rw [if_pos hm]
    simp only [Bool.or_eq_true] at hm
    simp only [Bool.false_eq_true, false_iff]
    rintro ⟨-, -, h3, h4, -⟩
    rcases hm with hm | hm
    · rw [h3] at hm; exact Bool.false_ne_true hm
    · rw [h4] at hm; exact Bool.false_ne_true hm
  · rw [if_neg hm]
    rw [Bool.or_eq_true, not_or, Bool.not_eq_true, Bool.not_eq_true] at hm
    by_cases ht : (m1.tier != m2.tier) = true
    · rw [if_pos ht]
      rw [bne_iff_ne] at ht
      simp only [Bool.false_eq_true, false_iff]
      rintro ⟨h1, -⟩; exact ht h1
    · rw [if_neg ht]
      rw [Bool.not_eq_true, bne_eq_false_iff_eq] at ht
      by_cases hb : m1.tier ≥ mochiTierData.length - 1
      · rw [if_pos hb]
        simp only [Bool.false_eq_true, false_iff]
        rintro ⟨-, h2, -⟩; omega
      · rw [if_neg hb]
        simp only [sqrtLt, Bool.and_eq_true, decide_eq_true_eq]
        unfold centerDistLt
        constructor
        · rintro ⟨hpos, hlt⟩
          exact ⟨ht, by omega, hm.1, hm.2, hpos, hlt⟩
        · rintro ⟨-, -, -, -, hpos, hlt⟩
          exact ⟨hpos, hlt⟩

/-- C8: canMerge(m1, m2) returns true if and only if m1 and m2 have the same
tier, that tier is below the maximum tier, neither body is already merging,
and their center distance is less than a fraction in the 0.85..0.95 range of
the sum of their base radii (0.85 on the main-thread path, 0.95 on the
worker path); in particular two maximum-tier bodies never merge. -/
theorem C8_canMerge_characterization :
    (∀ m1 m2 : SMochi,
      (canMergeM m1 m2 = true ↔
        m1.tier = m2.tier ∧ m1.tier < mochiTiers.length - 1 ∧
        m1.merging = false ∧ m2.merging = false ∧ centerDistLt m1 m2 0.85)) ∧
    (∀ m1 m2 : SMochi,
      (canMergeW m1 m2 = true ↔
        m1.tier = m2.tier ∧ m1.tier < mochiTierData.length - 1 ∧
        m1.merging = false ∧ m2.merging = false ∧ centerDistLt m1 m2 0.95)) ∧
    ((0.85 : ℚ) ≤ 0.85 ∧ (0.85 : ℚ) ≤ 0.95 ∧ (0.95 : ℚ) ≤ 0.95) ∧
    (∀ m1 m2 : SMochi, m1.tier = mochiTiers.length - 1 →
      m2.tier = mochiTierData.length - 1 →
      canMergeM m1 m2 = false ∧ canMergeW m1 m2 = false) := by
  refine ⟨canMergeM_iff, canMergeW_iff, by norm_num, ?_⟩
  intro m1 m2 h1 h2
  constructor
  · unfold canMergeM
    by_cases hm : (m1.merging || m2.merging) = true
    · rw [if_pos hm]
    · rw [if_neg hm]
      by_cases ht : (m1.tier != m2.tier) = true
      · rw [if_pos ht]
      · rw [if_neg ht]
        rw [if_pos (le_of_eq h1.symm)]
  · unfold canMergeW
    by_cases hm : (m1.merging || m2.merging) = true
    · rw [if_pos hm]
    · rw [if_neg hm]
      by_cases ht : (m1.tier != m2.tier) = true
      · rw [if_pos ht]
      · rw [if_neg ht]
        rw [Bool.not_eq_true, bne_eq_false_iff_eq] at ht
        rw [if_pos (le_of_eq (ht.trans h2).symm)]

/-- C8 witness: the characterization applied at a concrete merge-eligible
pair (two tier-0 bodies, radii 18, centers 30 apart, main-thread path) and
at a concrete maximum-tier pair. -/
theorem C8_canMerge_characterization_witness :
    canMergeM
      { (default : SMochi) with tier := 0, baseRadius := 18, cx := 100, cy := 100 }
      { (default : SMochi) with tier := 0, baseRadius := 18, cx := 130, cy := 100 } = true ∧
    canMergeM
      { (default : SMochi) with tier := 10, baseRadius := 108, cx := 100, cy := 100 }
      { (default : SMochi) with tier := 10, baseRadius := 108, cx := 130, cy := 100 } = false := by
  constructor
  · exact (C8_canMerge_characterization.1 _ _).mpr
      (by exact ⟨rfl, by norm_num [mochiTiers], rfl, rfl, by unfold centerDistLt; norm_num⟩)
  · exact (C8_canMerge_characterization.2.2.2 _ _ (by norm_num [mochiTiers])
      (by norm_num [mochiTierData])).1

/-- Default main-thread physics configuration, from src/scripts/physics.ts
lines 11-21 (defaultConfig). -/
def defaultConfig : PhysicsConfig :=
  { springStiffness := 0.4, damping := 0.9, pressure := 1.3, gravity := 0.6,
    mouseForce := 0.5, mouseRadius := 120, wallBounce := 0.3, friction := 0.88,
    squishRecovery := 0.045 }

/-- Worker-local physics configuration, from src/scripts/physics-worker.ts
lines 8-18; note wallBounce is 0.2 here while the main-thread defaultConfig
has 0.3. -/
def workerConfig : PhysicsConfig :=
  { springStiffness := 0.4, damping := 0.9, pressure := 1.3, gravity := 0.6,
    mouseForce := 0.5, mouseRadius := 120, wallBounce := 0.2, friction := 0.88,
    squishRecovery := 0.045 }

/-- Conversion of a body to its transport snapshot, from
src/scripts/physics-types.ts lines 52-78 (serializeMochi); the source clones
the point and spring arrays element-wise, which in this value embedding is
the identity on the lists. -/
def serializeMochi (m : Mochi) : SMochi :=
  { id := m.id, tier := m.tier, baseRadius := m.baseRadius, radius := m.radius,
    points := m.points, springs := m.springs, cx := m.cx, cy := m.cy,
    vx := m.vx, vy := m.vy, isDropping := m.isDropping,
    hasLanded := m.hasLanded, merging := m.merging, mergeTimer := m.mergeTimer,
    settleTimer := m.settleTimer, squishAmount := m.squishAmount,
    wobblePhase := m.wobblePhase, wobbleIntensity := m.wobbleIntensity,
    breathPhase := m.breathPhase, lastY := m.lastY,
    jitterAmount := m.jitterAmount, prevVx := m.prevVx, prevVy := m.prevVy }

/-- Application of a snapshot back onto a body, from
src/scripts/physics-types.ts lines 81-102 (applyPhysicsToMochi): overwrites
exactly the physics fields listed in the source; id, tier, baseRadius,
springs, color and the animation fields are left untouched. -/
def applyPhysicsToMochi (m : Mochi) (s : SMochi) : Mochi :=
  { m with
    points := s.points, cx := s.cx, cy := s.cy, vx := s.vx, vy := s.vy,
    radius := s.radius, isDropping := s.isDropping, hasLanded := s.hasLanded,
    merging := s.merging, mergeTimer := s.mergeTimer,
    settleTimer := s.settleTimer, squishAmount := s.squishAmount,
    wobblePhase := s.wobblePhase, wobbleIntensity := s.wobbleIntensity,
    breathPhase := s.breathPhase, lastY := s.lastY,
    jitterAmount := s.jitterAmount, prevVx := s.prevVx, prevVy := s.prevVy }

/-- C9: serializing a body to a transport snapshot and applying that
snapshot back reproduces the body exactly, in particular with identical
vertex positions and velocities, identical isDropping / hasLanded / merging
flags and identical merge and settle timers. -/
theorem C9_serialize_roundtrip (m : Mochi) :
    applyPhysicsToMochi m (serializeMochi m) = m := rfl

/-- Index pairs (i, j) with i < j < n in the scan order of the nested
`for i / for j = i + 1` loops of the source (runPhysicsUpdate and
updatePhysicsMainThread). -/
def pairIndices (n : ℕ) : List (ℕ × ℕ) :=
  (List.range n).flatMap fun i =>
    ((List.range n).filter fun j => i < j).map fun j => (i, j)

theorem mem_pairIndices {n i j : ℕ} :
    (i, j) ∈ pairIndices n ↔ i < j ∧ j < n := by
  unfold pairIndices
  simp only [List.mem_flatMap, List.mem_map, List.mem_filter, List.mem_range,
    decide_eq_true_eq, Prod.mk.injEq]
  constructor
  · rintro ⟨a, ha, b, ⟨hb, hab⟩, rfl, rfl⟩
    exact ⟨hab, hb⟩
  · rintro ⟨hij, hj⟩
    exact ⟨i, lt_trans hij hj, j, ⟨hj, hij⟩, rfl, rfl⟩

/-- Merge scan and single-commit step, run once per scheduler tick after
all pairwise resolution, from src/scripts/physics-worker.ts lines 830-861
(runPhysicsUpdate) and src/scripts/mochi.ts lines 584-600
(updatePhysicsMainThread): collect every pair (i, j), i < j, passing the
merge test into `mergePairs`, then process only `mergePairs[0]`, flagging
both bodies as merging with mergeTimer 1 and emitting one merge event at
the midpoint with tier + 1. The two paths share this scan shape and differ
only in the merge test they pass in (canMergeW resp. canMergeM). -/
def mergeScan (canMergeFn : SMochi → SMochi → Bool) (ms : List SMochi) :
    List SMochi × List PEvent :=
  let mergePairs := (pairIndices ms.length).filter fun ij =>
    canMergeFn (ms.getD ij.1 default) (ms.getD ij.2 default)
  match mergePairs with
  | [] => (ms, [])
  | (i, j) :: _ =>
    let m1 := ms.getD i default
    let m2 := ms.getD j default
    let mergeX := (m1.cx + m2.cx) / 2
    let mergeY := (m1.cy + m2.cy) / 2
    let newTier := m1.tier + 1
    (ms.mapIdx fun k m =>
      if k = i ∨ k = j then { m with merging := true, mergeTimer := 1 } else m,
     [PEvent.merge m1.id m2.id mergeX mergeY newTier])

/-- Number of merge events in an event list. -/
def countMergeEvents (evs : List PEvent) : ℕ :=
  (evs.filter fun e => match e with
    | PEvent.merge _ _ _ _ _ => true
    | _ => false).length

theorem mergeScan_le_one (p : SMochi → SMochi → Bool) (ms : List SMochi) :
    countMergeEvents (mergeScan p ms).2 ≤ 1 := by
  unfold mergeScan
  cases hp : (pairIndices ms.length).filter fun ij =>
      p (ms.getD ij.1 default) (ms.getD ij.2 default) with
  | nil => simp [hp, countMergeEvents]
  | cons hd tl =>
    rcases hd with ⟨i, j⟩
    simp [hp, countMergeEvents]

theorem mergeScan_eq_one_iff (p : SMochi → SMochi → Bool) (ms : List SMochi) :
    countMergeEvents (mergeScan p ms).2 = 1 ↔
      ∃ i j, i < j ∧ j < ms.length ∧
        p (ms.getD i default) (ms.getD j default) = true := by
  unfold mergeScan
  cases hp : (pairIndices ms.length).filter fun ij =>
      p (ms.getD ij.1 default) (ms.getD ij.2 default) with
  | nil =>
    simp only [hp, countMergeEvents, List.filter_nil, List.length_nil]
    constructor
    · omega
    · rintro ⟨i, j, hij, hj, hpij⟩
      have hmem : (i, j) ∈ (pairIndices ms.length).filter fun ij =>
          p (ms.getD ij.1 default) (ms.getD ij.2 default) := by
        rw [List.mem_filter]
        exact ⟨mem_pairIndices.mpr ⟨hij, hj⟩, hpij⟩
      rw [hp] at hmem
      exact absurd hmem (List.not_mem_nil _)
  | cons hd tl =>
    rcases hd with ⟨i, j⟩
    simp only [hp, countMergeEvents]
    constructor
    · intro _
      have hmem : ((i, j) : ℕ × ℕ) ∈ (pairIndices ms.length).filter fun ij =>
          p (ms.getD ij.1 default) (ms.getD ij.2 default) := by
        rw [hp]; exact List.mem_cons_self _ _
      rw [List.mem_filter] at hmem
      have hrange := mem_pairIndices.mp hmem.1
      exact ⟨i, j, hrange.1, hrange.2, hmem.2⟩
    · intro _
      simp

/-- C2: for every scheduler tick and body collection, at most one merge is
committed in that tick, and exactly one merge event is emitted in that tick
if and only if at least one merge-eligible pair (in the sense of the path's
canMerge test: same tier, below the maximum tier, neither merging, centers
within merge distance) exists at merge-scan time, on both the worker path
and the main-thread path. -/
theorem C2_single_merge_per_tick (ms : List SMochi) :
    (countMergeEvents (mergeScan canMergeW ms).2 ≤ 1 ∧
      (countMergeEvents (mergeScan canMergeW ms).2 = 1 ↔
        ∃ i j, i < j ∧ j < ms.length ∧
          canMergeW (ms.getD i default) (ms.getD j default) = true)) ∧
    (countMergeEvents (mergeScan canMergeM ms).2 ≤ 1 ∧
      (countMergeEvents (mergeScan canMergeM ms).2 = 1 ↔
        ∃ i j, i < j ∧ j < ms.length ∧
          canMergeM (ms.getD i default) (ms.getD j default) = true)) :=
  ⟨⟨mergeScan_le_one _ _, mergeScan_eq_one_iff _ _⟩,
   ⟨mergeScan_le_one _ _, mergeScan_eq_one_iff _ _⟩⟩

/-- Snapshot record with every field zero, false or empty; concrete inputs
below are built from it by explicit field updates. -/
def blankSMochi : SMochi :=
  { id := 0, tier := 0, baseRadius := 0, radius := 0, points := [],
    springs := [], cx := 0, cy := 0, vx := 0, vy := 0, isDropping := false,
    hasLanded := false, merging := false, mergeTimer := 0, settleTimer := 0,
    squishAmount := 0, wobblePhase := 0, wobbleIntensity := 0,
    breathPhase := 0, lastY := 0, jitterAmount := 0, prevVx := 0,
    prevVy := 0 }

/-- First body of the concrete worker/main divergence input: a tier-0 body
of base radius 18 at (100, 300). -/
def divergeBodyA : SMochi :=
  { blankSMochi with id := 1, baseRadius := 18, radius := 18, cx := 100, cy := 300 }

/-- Second body of the concrete divergence input: a tier-0 body of base
radius 18 at (132, 300), so the centers are exactly 32 apart, between the
main-thread merge distance 0.85 * 36 = 30.6 and the worker merge distance
0.95 * 36 = 34.2. -/
def divergeBodyB : SMochi :=
  { blankSMochi with id := 2, baseRadius := 18, radius := 18, cx := 132, cy := 300 }

theorem canMergeW_diverge : canMergeW divergeBodyA divergeBodyB = true := by
  rw [canMergeW_iff]
  refine ⟨rfl, by norm_num [divergeBodyA, blankSMochi, mochiTierData], rfl, rfl, ?_⟩
  unfold centerDistLt divergeBodyA divergeBodyB blankSMochi
  norm_num

theorem canMergeM_diverge : canMergeM divergeBodyA divergeBodyB = false := by
  rw [Bool.eq_false_iff, ne_eq, canMergeM_iff]
  rintro ⟨-, -, -, -, -, hlt⟩
  revert hlt
  unfold divergeBodyA divergeBodyB blankSMochi
  norm_num

/-- C1 (failing input): the worker path and the in-process main-thread path
are not the same algorithm. On the identical two-body input
[divergeBodyA, divergeBodyB] the worker merge test accepts (distance 32 <
0.95 * 36 = 34.2) while the main-thread merge test rejects (32 >= 0.85 * 36
= 30.6), so the worker tick commits a merge and emits a merge event while
the main-thread tick emits none: the two paths do not produce identical
event decisions on identical inputs. All arithmetic here is exact (the
distance comparison is the squared-form embedding of Math.sqrt, see
sqrtLt). -/
theorem C1_paths_diverge_on_identical_input :
    canMergeW divergeBodyA divergeBodyB = true ∧
    canMergeM divergeBodyA divergeBodyB = false ∧
    countMergeEvents (mergeScan canMergeW [divergeBodyA, divergeBodyB]).2 = 1 ∧
    countMergeEvents (mergeScan canMergeM [divergeBodyA, divergeBodyB]).2 = 0 := by
  refine ⟨canMergeW_diverge, canMergeM_diverge, ?_, ?_⟩
  · exact (mergeScan_eq_one_iff _ _).mpr
      ⟨0, 1, by norm_num, by norm_num, canMergeW_diverge⟩
  · have hle := mergeScan_le_one canMergeM [divergeBodyA, divergeBodyB]
    have hne : countMergeEvents (mergeScan canMergeM [divergeBodyA, divergeBodyB]).2 ≠ 1 := by
      rw [ne_eq, mergeScan_eq_one_iff]
      rintro ⟨i, j, hij, hj, hp⟩
      simp only [List.length_cons, List.length_nil] at hj
      interval_cases j <;> interval_cases i
      simp_all [canMergeM_diverge]
    omega

/-- Helper for evaluating the sqrt oracle at perfect squares: the exact
real square root of r * r is r when 0 <= r, and Rat.sqrt agrees. -/
theorem ratSqrt_exact (q r : ℚ) (h : 0 ≤ r) (hq : q = r * r) : Rat.sqrt q = r := by
  rw [hq, Rat.sqrt_eq, abs_of_nonneg h]

/-- Average per-vertex speed computed by the sleep check, from
src/scripts/physics-worker.ts lines 595-599: sum of the vertex speed
magnitudes divided by the vertex count. -/
def avgVertexSpeed (o : MathOracle) (ps : List Point) : ℚ :=
  (ps.map fun p => o.sqrt (p.vx * p.vx + p.vy * p.vy)).sum / ps.length

/-- Sleep pass, from src/scripts/physics-worker.ts lines 593-606 (tail of
updateMochiPhysics): when the body has landed, its settle timer has run
out, and the average vertex speed is below SLEEP_VELOCITY_THRESHOLD = 0.3,
zero every vertex velocity. The check reads nothing besides these three
conditions; in particular no overlap or collision-correction information
exists in its input. -/
def sleepPass (o : MathOracle) (m : SMochi) : SMochi :=
  { m with points :=
      if m.hasLanded = true ∧ m.settleTimer ≤ 0 ∧
          avgVertexSpeed o m.points < 0.3 then
        m.points.map fun p => { p with vx := 0, vy := 0 }
      else m.points }

/-- Ray-casting point-in-polygon test, from src/scripts/physics-worker.ts
lines 87-98 (pointInPolygon): exact rational arithmetic (one exact division
per edge test). The loop variable j trails i by one position, starting at
the last index, embedded as (i + n - 1) % n. -/
def pointInPolygon (x y : ℚ) (polygon : List Point) : Bool :=
  (List.range polygon.length).foldl
    (fun inside i =>
      let p := polygon.getD i default
      let q := polygon.getD ((i + polygon.length - 1) % polygon.length) default
      if ((p.y > y) ≠ (q.y > y)) ∧
          (x < (q.x - p.x) * (y - p.y) / (q.y - p.y) + p.x) then
        !inside
      else inside)
    false

/-- Landed, settled, slowly-moving body whose first vertex (300, 300) sits
deep inside the other body of the pair: tier 0, base radius 18, center
(305, 305), first vertex velocity (1/10, 0), all other velocities zero, so
the average vertex speed is 1/40 < 0.3. -/
def sleepCexBody : SMochi :=
  { blankSMochi with
    id := 1
    baseRadius := 18
    radius := 18
    points :=
      [ { x := 300, y := 300, vx := 1/10, vy := 0, ox := 0, oy := 0 },
        { x := 310, y := 300, vx := 0, vy := 0, ox := 0, oy := 0 },
        { x := 310, y := 310, vx := 0, vy := 0, ox := 0, oy := 0 },
        { x := 300, y := 310, vx := 0, vy := 0, ox := 0, oy := 0 } ]
    cx := 305
    cy := 305
    hasLanded := true
    settleTimer := 0 }

/-- Overlapping partner body: a square ring around center (300, 300) that
strictly contains the vertex (300, 300) of sleepCexBody; center distance to
sleepCexBody is sqrt 50, far below the resolver contact distance 36. -/
def sleepCexOther : SMochi :=
  { blankSMochi with
    id := 2
    baseRadius := 18
    radius := 18
    points :=
      [ { x := 280, y := 280, vx := 0, vy := 0, ox := 0, oy := 0 },
        { x := 320, y := 280, vx := 0, vy := 0, ox := 0, oy := 0 },
        { x := 320, y := 320, vx := 0, vy := 0, ox := 0, oy := 0 },
        { x := 280, y := 320, vx := 0, vy := 0, ox := 0, oy := 0 } ]
    cx := 300
    cy := 300 }

/-- C3 (failing input): the sleep pass zeroes the vertex velocities of a
landed, settled, slow body even while an unresolved overlap with another
body exists. Here a vertex of sleepCexBody lies strictly inside
sleepCexOther (by the resolver's own ray-casting test) and the centers are
within the resolver's contact distance, yet the sleep pass still zeroes the
(nonzero) velocities: the code has no overlap-freedom condition, against
the claim and against the repository's own docs (physics.md PITFALL 10).
The oracle is consulted only at 1/100 and 0, where Rat.sqrt is the exact
real square root. -/
theorem C3_sleep_fires_despite_overlap :
    (sleepCexBody.points.map fun p => (p.vx, p.vy))
        = [(1/10, 0), (0, 0), (0, 0), (0, 0)] ∧
    pointInPolygon 300 300 sleepCexOther.points = true ∧
    sqrtLt ((sleepCexOther.cx - sleepCexBody.cx) * (sleepCexOther.cx - sleepCexBody.cx) +
        (sleepCexOther.cy - sleepCexBody.cy) * (sleepCexOther.cy - sleepCexBody.cy))
      (sleepCexBody.baseRadius + sleepCexOther.baseRadius) = true ∧
    ((sleepPass ratOracle sleepCexBody).points.map fun p => (p.vx, p.vy))
        = [(0, 0), (0, 0), (0, 0), (0, 0)] := by
  have hr4 : List.range 4 = [0, 1, 2, 3] := by decide
  refine ⟨by simp [sleepCexBody, blankSMochi], ?_, ?_, ?_⟩
  · show pointInPolygon 300 300 sleepCexOther.points = true
    simp only [pointInPolygon, sleepCexOther, blankSMochi, List.length_cons,
      List.length_nil, hr4, List.foldl_cons, List.foldl_nil, List.getD]
    norm_num
  · simp only [sleepCexBody, sleepCexOther, blankSMochi, sqrtLt]
    norm_num
  · have havg : avgVertexSpeed ratOracle sleepCexBody.points = 1 / 40 := by
      simp only [avgVertexSpeed, ratOracle, sleepCexBody, blankSMochi,
        List.map_cons, List.map_nil, List.sum_cons, List.sum_nil,
        List.length_cons, List.length_nil]
      rw [ratSqrt_exact (1/10 * (1/10) + 0 * 0) (1/10) (by norm_num) (by norm_num),
        ratSqrt_exact (0 * 0 + 0 * 0) 0 (by norm_num) (by norm_num)]
      norm_num
    simp only [sleepPass, havg]
    rw [if_pos ⟨rfl, by norm_num [sleepCexBody, blankSMochi], by norm_num⟩]
    simp [sleepCexBody, blankSMochi]

/-- One spring-force application of the worker path, from
src/scripts/physics-worker.ts lines 225-252 (body of the spring loop of
updateMochiPhysics): position term (stretch scaled by stiffness) plus the
viscous damping term SPRING_DAMPING = 0.15 on the relative endpoint
velocity projected onto the spring axis. -/
def applySpringW (o : MathOracle) (cfg : PhysicsConfig) (dt : ℚ)
    (ps : List Point) (s : Spring) : List Point :=
  let p1 := ps.getD s.p1 default
  let p2 := ps.getD s.p2 default
  let dx := p2.x - p1.x
  let dy := p2.y - p1.y
  let dist := o.sqrt (dx * dx + dy * dy)
  if dist < 0.01 then ps
  else
    let nx := dx / dist
    let ny := dy / dist
    let diff := (dist - s.restLength) / dist
    let force := diff * s.stiffness * cfg.springStiffness * dt
    let relVx := p2.vx - p1.vx
    let relVy := p2.vy - p1.vy
    let relVelAlongSpring := relVx * nx + relVy * ny
    let dampingForce := relVelAlongSpring * 0.15 * dt
    let ps1 := ps.set s.p1
      { p1 with vx := p1.vx + (dx * force + nx * dampingForce),
                vy := p1.vy + (dy * force + ny * dampingForce) }
    let p2b := ps1.getD s.p2 default
    ps1.set s.p2
      { p2b with vx := p2b.vx - (dx * force + nx * dampingForce),
                 vy := p2b.vy - (dy * force + ny * dampingForce) }

/-- One spring-force application of the main-thread path, from
src/scripts/physics.ts lines 448-465 (body of the spring loop of
updateMochi): the position term only; no damping term of any kind appears
in this loop. -/
def applySpringM (o : MathOracle) (cfg : PhysicsConfig) (dt : ℚ)
    (ps : List Point) (s : Spring) : List Point :=
  let p1 := ps.getD s.p1 default
  let p2 := ps.getD s.p2 default
  let dx := p2.x - p1.x
  let dy := p2.y - p1.y
  let dist := o.sqrt (dx * dx + dy * dy)
  if dist < 0.01 then ps
  else
    let diff := (dist - s.restLength) / dist
    let force := diff * s.stiffness * cfg.springStiffness * dt
    let ps1 := ps.set s.p1
      { p1 with vx := p1.vx + dx * force, vy := p1.vy + dy * force }
    let p2b := ps1.getD s.p2 default
    ps1.set s.p2
      { p2b with vx := p2b.vx - dx * force, vy := p2b.vy - dy * force }

/-- Spring pass of the worker path: 4 iterations over all springs, from
src/scripts/physics-worker.ts lines 223-253. -/
def springPassW (o : MathOracle) (cfg : PhysicsConfig) (dt : ℚ)
    (ps : List Point) (springs : List Spring) : List Point :=
  (List.range 4).foldl (fun acc _ => springs.foldl (applySpringW o cfg dt) acc) ps

/-- Spring pass of the main-thread path: 4 iterations over all springs,
from src/scripts/physics.ts lines 447-465. -/
def springPassM (o : MathOracle) (cfg : PhysicsConfig) (dt : ℚ)
    (ps : List Point) (springs : List Spring) : List Point :=
  (List.range 4).foldl (fun acc _ => springs.foldl (applySpringM o cfg dt) acc) ps

/-- Spring at rest length 5 between vertices 0 and 1, with a nonzero
relative velocity (1, 0) minus (0, 0) along the spring axis. -/
def springCexPoints : List Point :=
  [ { x := 0, y := 0, vx := 1, vy := 0, ox := 0, oy := 0 },
    { x := 5, y := 0, vx := 0, vy := 0, ox := 0, oy := 0 } ]

/-- Edge spring of stiffness 0.5 at its rest length 5. -/
def springCexSpring : Spring :=
  { p1 := 0, p2 := 1, restLength := 5, stiffness := 0.5 }

/-- C5 (failing input): the viscous damping term is absent from the
main-thread spring computation. On a spring at exactly its rest length with
relative endpoint velocity 1 along the spring axis, the main-thread
application leaves both endpoint velocities unchanged (the position term is
zero and nothing else is applied), while the worker application damps them
to 0.85 and 0.15: the damping term is not present in every spring-force
computation of the engine. The oracle is consulted only at 25, where
Rat.sqrt is the exact real square root. -/
theorem C5_main_thread_spring_lacks_damping :
    ((applySpringM ratOracle defaultConfig 1 springCexPoints springCexSpring).map
        fun p => (p.vx, p.vy)) = [(1, 0), (0, 0)] ∧
    ((applySpringW ratOracle workerConfig 1 springCexPoints springCexSpring).map
        fun p => (p.vx, p.vy)) = [(17/20, 0), (3/20, 0)] := by
  have h25 : Rat.sqrt ((5 - 0) * (5 - 0) + (0 - 0) * (0 - 0)) = 5 :=
    ratSqrt_exact _ 5 (by norm_num) (by norm_num)
  constructor
  · simp only [applySpringM, springCexPoints, springCexSpring, ratOracle,
      List.getD, List.get?, defaultConfig]
    norm_num [h25, List.set]
  · simp only [applySpringW, springCexPoints, springCexSpring, ratOracle,
      List.getD, List.get?, workerConfig]
    norm_num [h25, List.set]

/-- Floor response for one vertex of the worker path, from
src/scripts/physics-worker.ts lines 406-434 (floor branch of the container
collision loop of updateMochiPhysics): clamp y to the floor line, choose a
velocity-dependent stiction friction, and either bounce with strength
wallBounce + min(0.2, 0.015 * impact) when falling faster than 0.5, or
zero the vertical velocity. The landed flag and impact bookkeeping are
body-level and live in the container pass. -/
def floorPointW (cfg : PhysicsConfig) (bottom : ℚ) (p : Point) : Point :=
  if p.y > bottom then
    let impact := |p.vy|
    let horizontalSpeed := |p.vx|
    let friction :=
      if horizontalSpeed < 2.0 then
        0.98 - (0.98 - 0.88) * (horizontalSpeed / 2.0)
      else 0.88
    if p.vy > 0.5 then
      let bounceStrength := cfg.wallBounce + min 0.2 (impact * 0.015)
      { p with y := bottom, vy := p.vy * -bounceStrength, vx := p.vx * friction }
    else
      { p with y := bottom, vy := 0, vx := p.vx * friction }
  else p

/-- Floor response for one vertex of the main-thread path, from
src/scripts/physics.ts lines 559-582 (floor branch of the container
collision loop of updateMochi): same bounce formula as the worker, but the
horizontal friction is the flat config value and is only applied in the
bounce branch. -/
def floorPointM (cfg : PhysicsConfig) (bottom : ℚ) (p : Point) : Point :=
  if p.y > bottom then
    let impact := |p.vy|
    if p.vy > 0.5 then
      let bounceStrength := cfg.wallBounce + min 0.2 (impact * 0.015)
      { p with y := bottom, vy := p.vy * -bounceStrength, vx := p.vx * cfg.friction }
    else
      { p with y := bottom, vy := 0 }
  else p

/-- Vertex hitting the floor line 100 from above with downward speed 10,
well above the 0.5 bounce threshold. -/
def floorCexPoint : Point :=
  { x := 160, y := 101, vx := 0, vy := 10, ox := 0, oy := 0 }

/-- C7 counterexample: a vertex hitting the floor at downward speed 10
under the worker configuration (wallBounce = 0.2) rebounds with vertical
speed 3.5 = (wallBounce + 0.15) * 10, so it retains a 0.35 fraction of its
vertical speed; the claim that it loses at least a (1 - wallBounce) = 0.8
fraction (i.e. retains at most 2) is false. -/
theorem C7_counterexample_bounce_loss :
    (floorPointW workerConfig 100 floorCexPoint).vy = -(7/2) ∧
    ¬(|floorCexPoint.vy| - |(floorPointW workerConfig 100 floorCexPoint).vy| ≥
        (1 - workerConfig.wallBounce) * |floorCexPoint.vy|) := by
  have h : (floorPointW workerConfig 100 floorCexPoint).vy = -(7/2) := by
    simp only [floorPointW, floorCexPoint, workerConfig]
    norm_num
  refine ⟨h, ?_⟩
  rw [h]
  simp only [floorCexPoint, workerConfig]
  rw [abs_neg, abs_of_nonneg (by norm_num : (0 : ℚ) ≤ 7/2),
    abs_of_nonneg (by norm_num : (0 : ℚ) ≤ 10)]
  norm_num

/-- C7 as amended: on a floor contact with downward speed above the bounce
threshold 0.5, the vertex's vertical velocity is multiplied by exactly
-(wallBounce + min(0.2, 0.015 * impact)), so it loses at least a
(1 - wallBounce - 0.2) fraction of its vertical speed (not (1 - wallBounce)),
and its position is clamped exactly onto the floor boundary
y = containerBottom - wallThickness, never below it, for any pre-clamp
downward speed; both execution paths satisfy this. -/
theorem C7_floor_contact_amended (cfg : PhysicsConfig) (bottom : ℚ) (p : Point)
    (hw : 0 ≤ cfg.wallBounce) (hy : p.y > bottom) (hv : p.vy > 0.5) :
    (floorPointW cfg bottom p).y = bottom ∧
    (floorPointW cfg bottom p).vy = p.vy * -(cfg.wallBounce + min 0.2 (|p.vy| * 0.015)) ∧
    |p.vy| - |(floorPointW cfg bottom p).vy| ≥ (1 - cfg.wallBounce - 0.2) * |p.vy| ∧
    (floorPointM cfg bottom p).y = bottom ∧
    (floorPointM cfg bottom p).vy = p.vy * -(cfg.wallBounce + min 0.2 (|p.vy| * 0.015)) ∧
    |p.vy| - |(floorPointM cfg bottom p).vy| ≥ (1 - cfg.wallBounce - 0.2) * |p.vy| ∧
    (∀ q : Point, q.y > bottom →
      (floorPointW cfg bottom q).y = bottom ∧ (floorPointM cfg bottom q).y = bottom) := by
  have hb0 : 0 ≤ cfg.wallBounce + min 0.2 (|p.vy| * 0.015) := by
    have : (0 : ℚ) ≤ min 0.2 (|p.vy| * 0.015) :=
      le_min (by norm_num) (by positivity)
    linarith
  have hb1 : cfg.wallBounce + min 0.2 (|p.vy| * 0.015) ≤ cfg.wallBounce + 0.2 := by
    have : min 0.2 (|p.vy| * 0.015) ≤ 0.2 := min_le_left _ _
    linarith
  have hpv : 0 < p.vy := lt_trans (by norm_num) hv
  have habs : |p.vy| = p.vy := abs_of_pos hpv
  rw [habs] at hb0 hb1
  have hkey : ∀ v : ℚ, v = p.vy * -(cfg.wallBounce + min 0.2 (|p.vy| * 0.015)) →
      |p.vy| - |v| ≥ (1 - cfg.wallBounce - 0.2) * |p.vy| := by
    intro v hveq
    rw [habs] at hveq
    rw [hveq, habs]
    rw [abs_of_nonpos (by nlinarith [mul_nonneg hpv.le hb0])]
    nlinarith [mul_le_mul_of_nonneg_left hb1 hpv.le]
  refine ⟨?_, ?_, ?_, ?_, ?_, ?_, ?_⟩
  · simp only [floorPointW]
    rw [if_pos hy, if_pos hv]
  · simp only [floorPointW]
    rw [if_pos hy, if_pos hv]
  · apply hkey
    simp only [floorPointW]
    rw [if_pos hy, if_pos hv]
  · simp only [floorPointM]
    rw [if_pos hy, if_pos hv]
  · simp only [floorPointM]
    rw [if_pos hy, if_pos hv]
  · apply hkey
    simp only [floorPointM]
    rw [if_pos hy, if_pos hv]
  · intro q hq
    constructor
    · simp only [floorPointW]
      rw [if_pos hq]
      by_cases hqv : q.vy > 0.5
      · rw [if_pos hqv]
      · rw [if_neg hqv]
    · simp only [floorPointM]
      rw [if_pos hq]
      by_cases hqv : q.vy > 0.5
      · rw [if_pos hqv]
      · rw [if_neg hqv]

/-- C7 witness: the amended floor-contact statement applied at the concrete
vertex floorCexPoint under the worker configuration. -/
theorem C7_floor_contact_amended_witness :
    (floorPointW workerConfig 100 floorCexPoint).y = 100 ∧
    |floorCexPoint.vy| - |(floorPointW workerConfig 100 floorCexPoint).vy| ≥
      (1 - workerConfig.wallBounce - 0.2) * |floorCexPoint.vy| := by
  have h := C7_floor_contact_amended workerConfig 100 floorCexPoint
    (by norm_num [workerConfig]) (by norm_num [floorCexPoint])
    (by norm_num [floorCexPoint])
  exact ⟨h.1, h.2.2.1⟩

/-- Mean vertex position, from calculateCenter (physics-worker.ts lines
36-43 and physics.ts lines 287-295). -/
def calculateCenter (ps : List Point) : ℚ × ℚ :=
  ((ps.map Point.x).sum / ps.length, (ps.map Point.y).sum / ps.length)

/-- Mean vertex velocity, from calculateVelocity (physics-worker.ts lines
56-63 and physics.ts lines 308-316). -/
def calculateVelocity (ps : List Point) : ℚ × ℚ :=
  ((ps.map Point.vx).sum / ps.length, (ps.map Point.vy).sum / ps.length)

/-- Absolute shoelace polygon area, from calculateArea (physics-worker.ts
lines 45-54 and physics.ts lines 297-306). -/
def calculateArea (ps : List Point) : ℚ :=
  |((List.range ps.length).map fun i =>
      (ps.getD i default).x * (ps.getD ((i + 1) % ps.length) default).y -
        (ps.getD ((i + 1) % ps.length) default).x * (ps.getD i default).y).sum| / 2

/-- Outward edge normals for a CW-wound ring, from calculateEdgeNormals
(physics-worker.ts lines 65-84): the normal of edge i is the normalized
(edgeY, -edgeX), or (0, 0) for a near-degenerate edge. -/
def calculateEdgeNormals (o : MathOracle) (ps : List Point) : List (ℚ × ℚ) :=
  (List.range ps.length).map fun i =>
    let p1 := ps.getD i default
    let p2 := ps.getD ((i + 1) % ps.length) default
    let edgeX := p2.x - p1.x
    let edgeY := p2.y - p1.y
    let edgeLen := o.sqrt (edgeX * edgeX + edgeY * edgeY)
    if edgeLen > 0.01 then (edgeY / edgeLen, -edgeX / edgeLen) else (0, 0)

/-- Jitter accounting, from physics-worker.ts lines 169-181 and the
identical physics.ts lines 334-350: accumulate on a velocity-sign reversal
inside the moderate speed band (1, 12), then decay by 0.92^dt and snap to 0
below 0.1. Returns the new jitterAmount. -/
def jitterCalc (o : MathOracle) (dt : ℚ) (vel : ℚ × ℚ)
    (prevVx prevVy jitterAmount : ℚ) : ℚ :=
  let speed := o.sqrt (vel.1 * vel.1 + vel.2 * vel.2)
  let j0 :=
    if 1 < speed ∧ speed < 12 then
      let xReversed := (prevVx > 0.5 ∧ vel.1 < -0.5) ∨ (prevVx < -0.5 ∧ vel.1 > 0.5)
      let yReversed := (prevVy > 0.5 ∧ vel.2 < -0.5) ∨ (prevVy < -0.5 ∧ vel.2 > 0.5)
      if xReversed ∨ yReversed then
        jitterAmount + (|vel.1 - prevVx| + |vel.2 - prevVy|) * 0.15 * dt
      else jitterAmount
    else jitterAmount
  let j1 := j0 * o.pow 0.92 dt
  if j1 < 0.1 then 0 else j1

/-- Gravity, from physics-worker.ts lines 193-196 and the identical
physics.ts lines 418-421. -/
def gravityPts (gravity dt : ℚ) (ps : List Point) : List Point :=
  ps.map fun p => { p with vy := p.vy + gravity * dt }

/-- Idle breathing/wobble forces along the vertex-to-center radius, from
physics-worker.ts lines 198-219 and the identical physics.ts lines 423-444;
center is the body center captured before the pass (positions are unchanged
since its computation, and the source reuses the stale binding). -/
def idlePts (o : MathOracle) (dt : ℚ) (center : ℚ × ℚ)
    (breathPhase wobblePhase wobbleIntensity : ℚ) (ps : List Point) :
    List Point :=
  let breathScale := 1 + o.sin breathPhase * 0.012
  let n := ps.length
  ps.mapIdx fun i p =>
    let angle := ((i : ℚ) / n) * piQ * 2
    let breathForce := (breathScale - 1) * 0.4
    let dx := p.x - center.1
    let dy := p.y - center.2
    let dist := o.sqrt (dx * dx + dy * dy)
    let p1 :=
      if dist > 0.1 then
        { p with vx := p.vx + dx / dist * breathForce * dt,
                 vy := p.vy + dy / dist * breathForce * dt }
      else p
    if wobbleIntensity > 0.01 then
      let wobble := o.sin (angle * 3 + wobblePhase) * wobbleIntensity
      if dist > 0.1 then
        { p1 with vx := p1.vx + dx / dist * wobble * 0.25 * dt,
                  vy := p1.vy + dy / dist * wobble * 0.25 * dt }
      else p1
    else p1

/-- Velocity damping and position integration, from physics-worker.ts lines
336-343 and the identical physics.ts lines 502-509. -/
def posUpdatePts (velocityDamping dt : ℚ) (ps : List Point) : List Point :=
  ps.map fun p =>
    let vx := p.vx * velocityDamping
    let vy := p.vy * velocityDamping
    { p with vx := vx, vy := vy, x := p.x + vx * dt, y := p.y + vy * dt }

/-- Hard per-vertex velocity clamp at MAX_VELOCITY = 25, from
physics-worker.ts lines 345-354; this pass exists only on the worker
path. -/
def clampPts (o : MathOracle) (ps : List Point) : List Point :=
  ps.map fun p =>
    let speed := o.sqrt (p.vx * p.vx + p.vy * p.vy)
    if speed > 25 then
      { p with vx := p.vx * (25 / speed), vy := p.vy * (25 / speed) }
    else p

/-- Angular-velocity bleed-off, from physics-worker.ts lines 356-390 and
the identical physics.ts lines 511-548; preVel is the mean velocity
captured at the top of the update function (the source reads the stale
`velocity` binding for avgSpeed). -/
def angularPts (o : MathOracle) (dt : ℚ) (preVel : ℚ × ℚ)
    (hasLanded : Bool) (ps : List Point) : List Point :=
  let avgSpeed := o.sqrt (preVel.1 * preVel.1 + preVel.2 * preVel.2)
  let center := calculateCenter ps
  let angularVel :=
    ((ps.map fun p =>
        let dx := p.x - center.1
        let dy := p.y - center.2
        let dist := o.sqrt (dx * dx + dy * dy)
        if dist > 0.1 then p.vx * (-dy / dist) + p.vy * (dx / dist) else 0).sum) /
      ps.length
  let rotationStrength := |angularVel|
  let baseDamping : ℚ :=
    if hasLanded then 0.4 else if rotationStrength > 0.5 then 0.25 else 0.1
  let angularDampingFactor := 1 - o.pow (1 - baseDamping) dt
  if avgSpeed < 5 ∨ rotationStrength > 0.3 then
    ps.map fun p =>
      let dx := p.x - center.1
      let dy := p.y - center.2
      let dist := o.sqrt (dx * dx + dy * dy)
      if dist > 0.1 then
        let tx := -dy / dist
        let ty := dx / dist
        let tangentVel := p.vx * tx + p.vy * ty
        { p with vx := p.vx - tx * tangentVel * angularDampingFactor,
                 vy := p.vy - ty * tangentVel * angularDampingFactor }
      else p
  else ps

/-- Minimum height/width shape constraints, from physics-worker.ts lines
468-530 and the identical physics.ts lines 609-673 (only the minDimension
constant differs between the paths and is passed in); an empty vertex list
is returned unchanged (the source loops run zero times over it). -/
def dimensionPts (o : MathOracle) (minDimension : ℚ) (ps : List Point) :
    List Point :=
  let pts1 : List Point :=
    match (ps.map Point.y).min?, (ps.map Point.y).max? with
    | some minY, some maxY =>
      if maxY - minY < minDimension then
        let midY := (minY + maxY) / 2
        let expansion := minDimension / 2
        ps.mapIdx fun idx (p : Point) =>
          let distFromMid := p.y - midY
          let p1 : Point :=
            if |distFromMid| < 0.1 then
              let angle := ((idx : ℚ) / ps.length) * piQ * 2
              { p with y := midY + o.sin angle * expansion }
            else
              let sign : ℚ := if distFromMid > 0 then 1 else -1
              { p with y := p.y + (midY + sign * expansion - p.y) * 0.5 }
          if (p1.y < midY ∧ p1.vy > 0) ∨ (p1.y > midY ∧ p1.vy < 0) then
            { p1 with vy := p1.vy * 0.3 }
          else p1
      else ps
    | _, _ => ps
  match (pts1.map Point.x).min?, (pts1.map Point.x).max? with
  | some minX, some maxX =>
    if maxX - minX < minDimension then
      let midX := (minX + maxX) / 2
      let expansion := minDimension / 2
      pts1.mapIdx fun idx (p : Point) =>
        let distFromMid := p.x - midX
        let p1 : Point :=
          if |distFromMid| < 0.1 then
            let angle := ((idx : ℚ) / pts1.length) * piQ * 2
            { p with x := midX + o.cos angle * expansion }
          else
            let sign : ℚ := if distFromMid > 0 then 1 else -1
            { p with x := p.x + (midX + sign * expansion - p.x) * 0.5 }
        if (p1.x < midX ∧ p1.vx > 0) ∨ (p1.x > midX ∧ p1.vx < 0) then
          { p1 with vx := p1.vx * 0.3 }
        else p1
    else pts1
  | _, _ => pts1

/-- Per-vertex minimum/maximum radius constraint from the body center, from
physics-worker.ts lines 532-572 and the identical physics.ts lines 675-721
(only the min/max radius constants differ between the paths and are passed
in). -/
def radiusPts (o : MathOracle) (minPointRadius maxPointRadius : ℚ)
    (ps : List Point) : List Point :=
  let finalCenter := calculateCenter ps
  ps.mapIdx fun idx p =>
    let dx := p.x - finalCenter.1
    let dy := p.y - finalCenter.2
    let dist := o.sqrt (dx * dx + dy * dy)
    if dist < minPointRadius then
      if dist > 0.1 then
        let nx := dx / dist
        let ny := dy / dist
        let radialVel := p.vx * nx + p.vy * ny
        let p1 := { p with x := finalCenter.1 + nx * minPointRadius,
                           y := finalCenter.2 + ny * minPointRadius }
        if radialVel < 0 then
          { p1 with vx := p1.vx - nx * radialVel, vy := p1.vy - ny * radialVel }
        else p1
      else
        let angle := ((idx : ℚ) / ps.length) * piQ * 2
        { p with x := finalCenter.1 + o.cos angle * minPointRadius,
                 y := finalCenter.2 + o.sin angle * minPointRadius,
                 vx := 0, vy := 0 }
    else if dist > maxPointRadius then
      let nx := dx / dist
      let ny := dy / dist
      let radialVel := p.vx * nx + p.vy * ny
      let p1 := { p with x := finalCenter.1 + nx * maxPointRadius,
                         y := finalCenter.2 + ny * maxPointRadius }
      if radialVel > 0 then
        { p1 with vx := p1.vx - nx * radialVel * 0.8,
                  vy := p1.vy - ny * radialVel * 0.8 }
      else p1
    else p

/-- Colors of the 11 tiers of the main-thread tier table, from
src/scripts/physics.ts lines 24-179 (mochiTiers, color field). -/
def mochiTierColors : List MochiColor :=
  [ { primary := "#F8F4EC", secondary := "#EBE5D8", highlight := "#FFFEFA",
      shadow := "rgba(120, 110, 90, 0.25)", cheek := "#EACFC0" },
    { primary := "#F8D7DD", secondary := "#F0C4CC", highlight := "#FFF0F3",
      shadow := "rgba(150, 100, 110, 0.25)", cheek := "#E8A0B0" },
    { primary := "#F8E8A0", secondary := "#EED880", highlight := "#FFFBE8",
      shadow := "rgba(140, 120, 50, 0.25)", cheek := "#E0C060" },
    { primary := "#F4A0A8", secondary := "#E88890", highlight := "#FFD8DC",
      shadow := "rgba(160, 80, 90, 0.28)", cheek := "#E06878" },
    { primary := "#F8C878", secondary := "#F0B050", highlight := "#FFE8C0",
      shadow := "rgba(160, 110, 40, 0.28)", cheek := "#E89830" },
    { primary := "#A8C890", secondary := "#90B078", highlight := "#D0E8C0",
      shadow := "rgba(80, 100, 60, 0.28)", cheek := "#78A058" },
    { primary := "#C8A8D0", secondary := "#B090C0", highlight := "#E8D8F0",
      shadow := "rgba(100, 70, 120, 0.28)", cheek := "#9870A8" },
    { primary := "#C8A888", secondary := "#B89070", highlight := "#E8D8C8",
      shadow := "rgba(110, 80, 50, 0.3)", cheek := "#A07850" },
    { primary := "#8B6850", secondary := "#705038", highlight := "#B89880",
      shadow := "rgba(80, 50, 30, 0.3)", cheek := "#583820" },
    { primary := "#5A5550", secondary := "#484440", highlight := "#888480",
      shadow := "rgba(50, 45, 40, 0.3)", cheek := "#383430" },
    { primary := "#3A3530", secondary := "#282420", highlight := "#585450",
      shadow := "rgba(30, 25, 20, 0.35)", cheek := "#181410" } ]

/-- Body creation, from src/scripts/physics.ts lines 186-285 (createMochi):
N vertices evenly on the tier's base-radius circle, edge springs (i, i+1)
of stiffness 0.5, skip springs (i, i+2) of stiffness 0.3, cross springs
(i, i + N/2) of stiffness 0.15, rest lengths captured from the layout.
`rand` is the ambient unseeded Math.random stream: the source draws three
samples, in field order, for wobblePhase (times 2 pi), breathPhase (times
2 pi) and blinkTimer (60 + 180 times the sample); `idCounter` is the
module-level mochiIdCounter. N = max(16, min(32, floor(12 + 2 tier))) is
always even, so the JS numPoints/2 coincides with natural division. -/
def createMochi (o : MathOracle) (rand : ℕ → ℚ) (idCounter : ℕ)
    (x y : ℚ) (tier : ℕ) : Mochi :=
  let radius := mochiTiers.getD tier 0
  let numPoints := max 16 (min 32 (12 + tier * 2))
  let points : List Point := (List.range numPoints).map fun i =>
    let angle := ((i : ℚ) / numPoints) * piQ * 2
    let ox := o.cos angle * radius
    let oy := o.sin angle * radius
    { x := x + ox, y := y + oy, vx := 0, vy := 0, ox := ox, oy := oy }
  let edgeSprings : List Spring := (List.range numPoints).map fun i =>
    let next := (i + 1) % numPoints
    let dx := (points.getD next default).x - (points.getD i default).x
    let dy := (points.getD next default).y - (points.getD i default).y
    { p1 := i, p2 := next, restLength := o.sqrt (dx * dx + dy * dy),
      stiffness := 0.5 }
  let skipSprings : List Spring := (List.range numPoints).map fun i =>
    let skip := (i + 2) % numPoints
    let dx := (points.getD skip default).x - (points.getD i default).x
    let dy := (points.getD skip default).y - (points.getD i default).y
    { p1 := i, p2 := skip, restLength := o.sqrt (dx * dx + dy * dy),
      stiffness := 0.3 }
  let crossSprings : List Spring := (List.range (numPoints / 2)).map fun i =>
    let opposite := (i + numPoints / 2) % numPoints
    let dx := (points.getD opposite default).x - (points.getD i default).x
    let dy := (points.getD opposite default).y - (points.getD i default).y
    { p1 := i, p2 := opposite, restLength := o.sqrt (dx * dx + dy * dy),
      stiffness := 0.15 }
  { id := idCounter, tier := tier, points := points,
    springs := edgeSprings ++ skipSprings ++ crossSprings,
    cx := x, cy := y, vx := 0, vy := 0, radius := radius,
    baseRadius := radius, color := mochiTierColors.getD tier default,
    grabbed := false, emotion := "happy", emotionTimer := 0,
    squishAmount := 0, impactVelocity := 0,
    wobblePhase := rand 0 * piQ * 2, wobbleIntensity := 0,
    breathPhase := rand 1 * piQ * 2, lastY := y, merging := false,
    mergeTimer := 0, isDropping := false, hasLanded := false,
    settleTimer := 0, blinkTimer := 60 + rand 2 * 180, blinkState := 0,
    lookDirection := 0, lookTimer := 0, idleTimer := 0, jitterAmount := 0,
    prevVx := 0, prevVy := 0 }

/-- C4 (failing input): two runs with the same seed and the same drop
sequence do not produce identical body states, because createMochi draws
wobblePhase, breathPhase and blinkTimer from the ambient unseeded
Math.random stream, not from the seeded generator. For every oracle (that
is, whatever the values of the transcendental library functions), the same
drop command (same position, tier and id) executed in a run whose ambient
stream yields 0 and in a run whose ambient stream yields 1/2 creates bodies
with different breathPhase (0 versus pi); breathPhase feeds the breathing
forces of the integrator, so the two runs' body states diverge. -/
theorem C4_fixed_seed_runs_diverge (o : MathOracle) (idc : ℕ) (x y : ℚ)
    (tier : ℕ) :
    (createMochi o (fun _ => 0) idc x y tier).breathPhase ≠
      (createMochi o (fun _ => 1/2) idc x y tier).breathPhase := by
  simp only [createMochi]
  norm_num [piQ]

/-- Internal pressure pass of the worker path, from physics-worker.ts lines
255-331: only below target area, base pressure plus a tier-dependent hard
core (thresholds 0.82/0.68/0.6, strengths 22/12/8), emergency 0.7 velocity
damping below half compression, and application along a 60/40 blend of the
radial direction and the averaged outward edge normals, skipping vertices
at or beyond the tier's max radius; center is recomputed at the head of the
block as in the source. -/
def pressurePassW (o : MathOracle) (cfg : PhysicsConfig) (dt : ℚ)
    (m : SMochi) : SMochi :=
  let center := calculateCenter m.points
  let targetArea := piQ * m.baseRadius * m.baseRadius
  let currentArea := calculateArea m.points
  let areaDiff := (targetArea - currentArea) / targetArea
  let compressionRatio := currentArea / targetArea
  let newPts : List Point :=
    if compressionRatio < 1.0 then
        let coreThreshold : ℚ :=
          if m.tier ≤ 2 then 0.82 else if m.tier ≤ 4 then 0.68 else 0.6
        let coreStrength : ℚ :=
          if m.tier ≤ 2 then 22 else if m.tier ≤ 4 then 12 else 8
        let pressureForce :=
          if compressionRatio < coreThreshold then
            areaDiff * cfg.pressure +
              ((coreThreshold - compressionRatio) / coreThreshold) *
                ((coreThreshold - compressionRatio) / coreThreshold) *
                cfg.pressure * coreStrength
          else areaDiff * cfg.pressure
        let pts1 : List Point :=
          if compressionRatio < 0.5 then
            m.points.map fun p => { p with vx := p.vx * 0.7, vy := p.vy * 0.7 }
          else m.points
        let edgeNormals := calculateEdgeNormals o pts1
        let n := pts1.length
        let maxRadius := m.baseRadius *
          (if m.tier ≤ 2 then 1.05 else if m.tier ≤ 4 then 1.15 else 1.25)
        pts1.mapIdx fun i (p : Point) =>
          let rdx := p.x - center.1
          let rdy := p.y - center.2
          let rDist := o.sqrt (rdx * rdx + rdy * rdy)
          if rDist ≥ maxRadius then p
          else
            let radial : ℚ × ℚ :=
              if rDist > 0.1 then (rdx / rDist, rdy / rDist) else (0, 0)
            let prevNormal := edgeNormals.getD ((i + n - 1) % n) (0, 0)
            let currNormal := edgeNormals.getD i (0, 0)
            let e0 := ((prevNormal.1 + currNormal.1) / 2,
                       (prevNormal.2 + currNormal.2) / 2)
            let edgeLen := o.sqrt (e0.1 * e0.1 + e0.2 * e0.2)
            let e1 := if edgeLen > 0.01 then (e0.1 / edgeLen, e0.2 / edgeLen) else e0
            let blend := (radial.1 * 0.6 + e1.1 * 0.4, radial.2 * 0.6 + e1.2 * 0.4)
            let blendLen := o.sqrt (blend.1 * blend.1 + blend.2 * blend.2)
            if blendLen > 0.01 then
              { p with vx := p.vx + blend.1 / blendLen * pressureForce * dt,
                       vy := p.vy + blend.2 / blendLen * pressureForce * dt }
            else p
    else m.points
  { m with points := newPts }

/-- Internal pressure pass of the main-thread path, from physics.ts lines
467-497: base pressure plus a tier-dependent hard core (thresholds
0.75/0.68/0.6, strengths 15/12/8), applied purely radially, with no
below-target gate and no emergency damping. -/
def pressurePassM (o : MathOracle) (cfg : PhysicsConfig) (dt : ℚ)
    (m : Mochi) : Mochi :=
  let center := calculateCenter m.points
  let targetArea := piQ * m.baseRadius * m.baseRadius
  let currentArea := calculateArea m.points
  let areaDiff := (targetArea - currentArea) / targetArea
  let compressionRatio := currentArea / targetArea
  let coreThreshold : ℚ :=
    if m.tier ≤ 1 then 0.75 else if m.tier ≤ 3 then 0.68 else 0.6
  let coreStrength : ℚ :=
    if m.tier ≤ 1 then 15 else if m.tier ≤ 3 then 12 else 8
  let pressureForce :=
    if compressionRatio < coreThreshold then
      areaDiff * cfg.pressure +
        ((coreThreshold - compressionRatio) / coreThreshold) *
          ((coreThreshold - compressionRatio) / coreThreshold) *
          cfg.pressure * coreStrength
    else areaDiff * cfg.pressure
  { m with points := m.points.map fun p =>
      let dx := p.x - center.1
      let dy := p.y - center.2
      let dist := o.sqrt (dx * dx + dy * dy)
      if dist > 0.1 then
        { p with vx := p.vx + dx / dist * pressureForce * dt,
                 vy := p.vy + dy / dist * pressureForce * dt }
      else p }

/-- Accumulator for the container collision loop: the processed vertices
and the body-level fields the loop mutates. -/
structure ContainerAcc where
  pts : List Point
  hasLanded : Bool
  isDropping : Bool
  settleTimer : ℚ
  wobbleIntensity : ℚ
  hadFloorImpact : Bool
  maxFloorImpact : ℚ
  events : List PEvent

/-- One iteration of the worker container loop, from physics-worker.ts
lines 406-456: floor response (floorPointW), landed flagging with a landed
event, then left and right wall responses with wobble bumps; the wobble
bump reads the vertex velocity after the wall reflection, as the source
does. -/
def containerStepW (cfg : PhysicsConfig) (mid : ℕ) (left right bottom : ℚ)
    (acc : ContainerAcc) (p : Point) : ContainerAcc :=
  let contact := p.y > bottom
  let impact := |p.vy|
  let bounced := contact ∧ p.vy > 0.5
  let p1 := floorPointW cfg bottom p
  let maxFI := if bounced ∧ impact > acc.maxFloorImpact then impact else acc.maxFloorImpact
  let hadFI := if bounced ∧ impact > 2 then true else acc.hadFloorImpact
  let landedNow := contact ∧ acc.hasLanded = false ∧ acc.isDropping = true
  let events1 := if landedNow then acc.events ++ [PEvent.landed mid impact] else acc.events
  let hitL := p1.x < left
  let p2 := if hitL then { p1 with x := left, vx := p1.vx * -cfg.wallBounce } else p1
  let w1 := if hitL then min 1.5 (acc.wobbleIntensity + |p1.vx * -cfg.wallBounce| * 0.1)
            else acc.wobbleIntensity
  let hitR := p2.x > right
  let p3 := if hitR then { p2 with x := right, vx := p2.vx * -cfg.wallBounce } else p2
  let w2 := if hitR then min 1.5 (w1 + |p2.vx * -cfg.wallBounce| * 0.1) else w1
  { pts := acc.pts ++ [p3]
    hasLanded := if landedNow then true else acc.hasLanded
    isDropping := if landedNow then false else acc.isDropping
    settleTimer := if landedNow then 60 else acc.settleTimer
    wobbleIntensity := w2
    hadFloorImpact := hadFI
    maxFloorImpact := maxFI
    events := events1 }

/-- Worker container pass plus the floor-impact effects block, from
physics-worker.ts lines 392-466: fold the container loop over the vertices,
then raise squish/wobble and possibly emit a floorImpact event when the
strongest bounce exceeded the thresholds. -/
def containerPassW (cfg : PhysicsConfig) (container : Container)
    (m : SMochi) : SMochi × List PEvent :=
  let left := container.x + container.wallThickness
  let right := container.x + container.width - container.wallThickness
  let bottom := container.y + container.height - container.wallThickness
  let acc := m.points.foldl (containerStepW cfg m.id left right bottom)
    { pts := []
      hasLanded := m.hasLanded
      isDropping := m.isDropping
      settleTimer := m.settleTimer
      wobbleIntensity := m.wobbleIntensity
      hadFloorImpact := false
      maxFloorImpact := 0
      events := [] }
  let big := acc.hadFloorImpact ∧ acc.maxFloorImpact > 2
  let squish := if big then max m.squishAmount (min 0.7 (acc.maxFloorImpact * 0.06))
                else m.squishAmount
  let wob := if big then min 2.5 (acc.wobbleIntensity + acc.maxFloorImpact * 0.15)
             else acc.wobbleIntensity
  let events2 := if big ∧ acc.maxFloorImpact > 5 then
      acc.events ++ [PEvent.floorImpact m.id acc.maxFloorImpact]
    else acc.events
  ({ m with
      points := acc.pts
      hasLanded := acc.hasLanded
      isDropping := acc.isDropping
      settleTimer := acc.settleTimer
      wobbleIntensity := wob
      squishAmount := squish }, events2)

/-- One iteration of the main-thread container loop, from physics.ts lines
559-595: floor response (floorPointM), landed flagging (no events on this
path), then the wall responses with wobble bumps. -/
def containerStepM (cfg : PhysicsConfig) (left right bottom : ℚ)
    (acc : ContainerAcc) (p : Point) : ContainerAcc :=
  let contact := p.y > bottom
  let impact := |p.vy|
  let bounced := contact ∧ p.vy > 0.5
  let p1 := floorPointM cfg bottom p
  let maxFI := if bounced ∧ impact > acc.maxFloorImpact then impact else acc.maxFloorImpact
  let hadFI := if bounced ∧ impact > 2 then true else acc.hadFloorImpact
  let landedNow := contact ∧ acc.hasLanded = false ∧ acc.isDropping = true
  let hitL := p1.x < left
  let p2 := if hitL then { p1 with x := left, vx := p1.vx * -cfg.wallBounce } else p1
  let w1 := if hitL then min 1.5 (acc.wobbleIntensity + |p1.vx * -cfg.wallBounce| * 0.1)
            else acc.wobbleIntensity
  let hitR := p2.x > right
  let p3 := if hitR then { p2 with x := right, vx := p2.vx * -cfg.wallBounce } else p2
  let w2 := if hitR then min 1.5 (w1 + |p2.vx * -cfg.wallBounce| * 0.1) else w1
  { pts := acc.pts ++ [p3]
    hasLanded := if landedNow then true else acc.hasLanded
    isDropping := if landedNow then false else acc.isDropping
    settleTimer := if landedNow then 60 else acc.settleTimer
    wobbleIntensity := w2
    hadFloorImpact := hadFI
    maxFloorImpact := maxFI
    events := acc.events }

/-- Main-thread container pass plus its floor-impact effects block, from
physics.ts lines 550-607: as the worker pass, but without events; a strong
impact records impactVelocity and may force the squished emotion. -/
def containerPassM (cfg : PhysicsConfig) (container : Container)
    (m : Mochi) : Mochi :=
  let left := container.x + container.wallThickness
  let right := container.x + container.width - container.wallThickness
  let bottom := container.y + container.height - container.wallThickness
  let acc := m.points.foldl (containerStepM cfg left right bottom)
    { pts := []
      hasLanded := m.hasLanded
      isDropping := m.isDropping
      settleTimer := m.settleTimer
      wobbleIntensity := m.wobbleIntensity
      hadFloorImpact := false
      maxFloorImpact := 0
      events := [] }
  let big := acc.hadFloorImpact ∧ acc.maxFloorImpact > 2
  let squish := if big then max m.squishAmount (min 0.7 (acc.maxFloorImpact * 0.06))
                else m.squishAmount
  let wob := if big then min 2.5 (acc.wobbleIntensity + acc.maxFloorImpact * 0.15)
             else acc.wobbleIntensity
  { m with
    points := acc.pts
    hasLanded := acc.hasLanded
    isDropping := acc.isDropping
    settleTimer := acc.settleTimer
    wobbleIntensity := wob
    squishAmount := squish
    impactVelocity := if big then acc.maxFloorImpact else m.impactVelocity
    emotion := if big ∧ acc.maxFloorImpact > 5 then "squished" else m.emotion
    emotionTimer :=
      if big ∧ acc.maxFloorImpact > 5 then min 20 (acc.maxFloorImpact * 2)
      else m.emotionTimer }

/-- Emotion update of the main-thread path, from physics.ts lines 356-409:
decrement the emotion timer; once it reaches zero, pick the new emotion
from jitter, speed, squish and deformation (mean relative deviation of the
vertex distances from the base radius) and refresh the timer. In the source
the branch always ends by writing newTimer (either with the new emotion or
via the timer refresh), which the pair captures. -/
def emotionPassM (o : MathOracle) (dt : ℚ) (speed : ℚ) (m : Mochi) : Mochi :=
  let center := calculateCenter m.points
  let deformation :=
    ((m.points.map fun p =>
        let dx := p.x - center.1
        let dy := p.y - center.2
        let dist := o.sqrt (dx * dx + dy * dy)
        |dist - m.baseRadius| / m.baseRadius).sum) / m.points.length
  let et := m.emotionTimer - dt
  let pair : String × ℚ :=
    if et ≤ 0 then
      if m.jitterAmount > 2 then ("stressed", 15)
      else if speed > 15 then ("flying", 15)
      else if m.squishAmount > 0.5 ∨ deformation > 0.25 then ("squished", 20)
      else if speed < 0.5 ∧ m.squishAmount < 0.15 ∧ deformation < 0.1 then
        if m.emotion ≠ "happy" ∧ m.emotion ≠ "sleepy" ∧ m.emotion ≠ "yawning" then
          ("happy", 120)
        else (m.emotion, 60)
      else if m.squishAmount < 0.2 ∧ speed < 4 then
        if m.emotion ≠ "happy" ∧ m.emotion ≠ "sleepy" then ("happy", 45)
        else (m.emotion, 30)
      else (m.emotion, 30)
    else (m.emotion, et)
  { m with emotion := pair.1, emotionTimer := pair.2 }

/-- Worker tail pass, from physics-worker.ts lines 574-591: recompute
center and mean velocity, cap squishAmount by tier, and floor the rendered
radius. -/
def centerRadiusPassW (m : SMochi) : SMochi :=
  let c := calculateCenter m.points
  let v := calculateVelocity m.points
  let maxSquish : ℚ := if m.tier ≤ 2 then 0.3 else if m.tier ≤ 4 then 0.5 else 0.6
  let squish := min m.squishAmount maxSquish
  let minRadiusRatio : ℚ := if m.tier ≤ 2 then 0.7 else 0.5
  { m with
    cx := c.1
    cy := c.2
    vx := v.1
    vy := v.2
    squishAmount := squish
    radius := max (m.baseRadius * minRadiusRatio)
      (m.baseRadius * (1 - squish * 0.15)) }

/-- Main-thread tail pass, from physics.ts lines 723-741: as the worker
tail pass with the main-thread constants. -/
def centerRadiusPassM (m : Mochi) : Mochi :=
  let c := calculateCenter m.points
  let v := calculateVelocity m.points
  let maxSquish : ℚ := if m.tier ≤ 1 then 0.4 else if m.tier ≤ 3 then 0.5 else 0.6
  let squish := min m.squishAmount maxSquish
  let minRadiusRatio : ℚ := if m.tier ≤ 1 then 0.6 else 0.5
  { m with
    cx := c.1
    cy := c.2
    vx := v.1
    vy := v.2
    squishAmount := squish
    radius := max (m.baseRadius * minRadiusRatio)
      (m.baseRadius * (1 - squish * 0.15)) }

/-- Jitter/breath/wobble bookkeeping of the worker path, from
physics-worker.ts lines 163-191: record lastY, update the jitter
accumulator from the mean-velocity reversal test, store the previous
velocity, advance the breath phase and decay the wobble intensity.
`velocity0` is the mean velocity captured at the top of the update. -/
def jitterPassW (o : MathOracle) (dt : ℚ) (velocity0 : ℚ × ℚ) (m : SMochi) : SMochi :=
  { m with
    lastY := m.cy
    jitterAmount := jitterCalc o dt velocity0 m.prevVx m.prevVy m.jitterAmount
    prevVx := velocity0.1
    prevVy := velocity0.2
    breathPhase := m.breathPhase + 0.02 * dt
    wobbleIntensity := m.wobbleIntensity * o.pow 0.95 dt }

/-- Gravity pass on a worker body (physics-worker.ts lines 193-196). -/
def gravityPassW (cfg : PhysicsConfig) (dt : ℚ) (m : SMochi) : SMochi :=
  { m with points := gravityPts cfg.gravity dt m.points }

/-- Idle-animation pass on a worker body (physics-worker.ts lines
198-220), including the wobble phase advance after the loop. -/
def idlePassW (o : MathOracle) (dt : ℚ) (center0 : ℚ × ℚ) (m : SMochi) : SMochi :=
  { m with
    points := idlePts o dt center0 m.breathPhase m.wobblePhase m.wobbleIntensity m.points
    wobblePhase := m.wobblePhase + 0.12 * dt }

/-- Spring pass on a worker body (physics-worker.ts lines 222-253). -/
def springBodyPassW (o : MathOracle) (cfg : PhysicsConfig) (dt : ℚ) (m : SMochi) : SMochi :=
  { m with points := springPassW o cfg dt m.points m.springs }

/-- Squish recovery on a worker body (physics-worker.ts line 334). -/
def squishPassW (cfg : PhysicsConfig) (dt : ℚ) (m : SMochi) : SMochi :=
  { m with squishAmount := max 0 (m.squishAmount - cfg.squishRecovery * dt) }

/-- Damped position update on a worker body (physics-worker.ts lines
336-343). -/
def posPassW (o : MathOracle) (cfg : PhysicsConfig) (dt : ℚ) (m : SMochi) : SMochi :=
  { m with points := posUpdatePts (o.pow cfg.damping dt) dt m.points }

/-- Hard velocity clamp on a worker body (physics-worker.ts lines
345-354). -/
def clampPassW (o : MathOracle) (m : SMochi) : SMochi :=
  { m with points := clampPts o m.points }

/-- Angular bleed-off on a worker body (physics-worker.ts lines 356-390). -/
def angularPassW (o : MathOracle) (dt : ℚ) (velocity0 : ℚ × ℚ) (m : SMochi) : SMochi :=
  { m with points := angularPts o dt velocity0 m.hasLanded m.points }

/-- Dimension constraints on a worker body (physics-worker.ts lines
468-530, minDimension constants of lines 470). -/
def dimensionPassW (o : MathOracle) (m : SMochi) : SMochi :=
  let minD : ℚ := m.baseRadius * (if m.tier ≤ 2 then 0.9 else if m.tier ≤ 4 then 0.7 else 0.5)
  { m with points := dimensionPts o minD m.points }

/-- Vertex radius constraints on a worker body (physics-worker.ts lines
532-572, constants of lines 535-536). -/
def radiusPassW (o : MathOracle) (m : SMochi) : SMochi :=
  let minR : ℚ := m.baseRadius * (if m.tier ≤ 2 then 0.85 else if m.tier ≤ 4 then 0.65 else 0.55)
  let maxR : ℚ := m.baseRadius * (if m.tier ≤ 2 then 1.05 else if m.tier ≤ 4 then 1.15 else 1.25)
  { m with points := radiusPts o minR maxR m.points }

/-- One integration sub-step of the worker path, from physics-worker.ts
lines 153-607 (updateMochiPhysics): a merging body is returned untouched;
otherwise the passes run in source order (innermost first): jitter/breath
accounting, gravity, idle forces, 4 damped spring iterations, gated hybrid
pressure, squish recovery, damped position update, hard velocity clamp,
angular bleed-off, container collision with events, floor-impact effects,
minimum dimension and vertex radius constraints, center/radius refresh,
sleep. The mean velocity and center captured at the top feed jitter, idle
and the angular pass, as the stale bindings do in the source; the `events`
array is returned as a list. -/
def updateMochiPhysics (o : MathOracle) (cfg : PhysicsConfig)
    (container : Container) (dt : ℚ) (m : SMochi) : SMochi × List PEvent :=
  if m.merging then (m, [])
  else
    let r := containerPassW cfg container
      (angularPassW o dt (calculateVelocity m.points)
        (clampPassW o
          (posPassW o cfg dt
            (squishPassW cfg dt
              (pressurePassW o cfg dt
                (springBodyPassW o cfg dt
                  (idlePassW o dt (calculateCenter m.points)
                    (gravityPassW cfg dt
                      (jitterPassW o dt (calculateVelocity m.points) m)))))))))
    (sleepPass o
      (centerRadiusPassW
        (radiusPassW o
          (dimensionPassW o r.1))), r.2)

/-- Jitter bookkeeping of the main-thread path, from physics.ts lines
328-354 (no breath/wobble update here: on this path those happen after the
emotion update). -/
def jitterPassM (o : MathOracle) (dt : ℚ) (velocity0 : ℚ × ℚ) (m : Mochi) : Mochi :=
  { m with
    lastY := m.cy
    jitterAmount := jitterCalc o dt velocity0 m.prevVx m.prevVy m.jitterAmount
    prevVx := velocity0.1
    prevVy := velocity0.2 }

/-- Breath-phase advance and wobble decay of the main-thread path
(physics.ts lines 411-416). -/
def breathPassM (o : MathOracle) (dt : ℚ) (m : Mochi) : Mochi :=
  { m with
    breathPhase := m.breathPhase + 0.02 * dt
    wobbleIntensity := m.wobbleIntensity * o.pow 0.95 dt }

/-- Gravity pass on a main-thread body (physics.ts lines 418-421). -/
def gravityPassM (cfg : PhysicsConfig) (dt : ℚ) (m : Mochi) : Mochi :=
  { m with points := gravityPts cfg.gravity dt m.points }

/-- Idle-animation pass on a main-thread body (physics.ts lines 423-445). -/
def idlePassM (o : MathOracle) (dt : ℚ) (center0 : ℚ × ℚ) (m : Mochi) : Mochi :=
  { m with
    points := idlePts o dt center0 m.breathPhase m.wobblePhase m.wobbleIntensity m.points
    wobblePhase := m.wobblePhase + 0.12 * dt }

/-- Spring pass on a main-thread body (physics.ts lines 447-465). -/
def springBodyPassM (o : MathOracle) (cfg : PhysicsConfig) (dt : ℚ) (m : Mochi) : Mochi :=
  { m with points := springPassM o cfg dt m.points m.springs }

/-- Squish recovery on a main-thread body (physics.ts line 500). -/
def squishPassM (cfg : PhysicsConfig) (dt : ℚ) (m : Mochi) : Mochi :=
  { m with squishAmount := max 0 (m.squishAmount - cfg.squishRecovery * dt) }

/-- Damped position update on a main-thread body (physics.ts lines
502-509); no velocity clamp follows it on this path. -/
def posPassM (o : MathOracle) (cfg : PhysicsConfig) (dt : ℚ) (m : Mochi) : Mochi :=
  { m with points := posUpdatePts (o.pow cfg.damping dt) dt m.points }

/-- Angular bleed-off on a main-thread body (physics.ts lines 511-548). -/
def angularPassM (o : MathOracle) (dt : ℚ) (velocity0 : ℚ × ℚ) (m : Mochi) : Mochi :=
  { m with points := angularPts o dt velocity0 m.hasLanded m.points }

/-- Dimension constraints on a main-thread body (physics.ts lines 609-673,
minDimension constants of line 613). -/
def dimensionPassM (o : MathOracle) (m : Mochi) : Mochi :=
  let minD : ℚ := m.baseRadius * (if m.tier ≤ 1 then 1.0 else if m.tier ≤ 3 then 0.8 else 0.6)
  { m with points := dimensionPts o minD m.points }

/-- Vertex radius constraints on a main-thread body (physics.ts lines
675-721, constants of lines 678-680). -/
def radiusPassM (o : MathOracle) (m : Mochi) : Mochi :=
  let minR : ℚ := m.baseRadius * (if m.tier ≤ 1 then 0.7 else if m.tier ≤ 3 then 0.4 else 0.3)
  let maxR : ℚ := m.baseRadius * (if m.tier ≤ 1 then 1.08 else if m.tier ≤ 3 then 1.3 else 1.4)
  { m with points := radiusPts o minR maxR m.points }

/-- One integration sub-step of the main-thread path, from physics.ts lines
318-742 (updateMochi): as the worker sub-step, but with the emotion update,
undamped springs, ungated radial pressure, no velocity clamp, no stiction,
different tier constants, no events and no sleep pass. The passes run in
source order, innermost first. -/
def updateMochi (o : MathOracle) (cfg : PhysicsConfig)
    (container : Container) (dt : ℚ) (m : Mochi) : Mochi :=
  if m.merging then m
  else
    centerRadiusPassM
      (radiusPassM o
        (dimensionPassM o
          (containerPassM cfg container
            (angularPassM o dt (calculateVelocity m.points)
              (posPassM o cfg dt
                (squishPassM cfg dt
                  (pressurePassM o cfg dt
                    (springBodyPassM o cfg dt
                      (idlePassM o dt (calculateCenter m.points)
                        (gravityPassM cfg dt
                          (breathPassM o dt
                            (emotionPassM o dt
                              (o.sqrt ((calculateVelocity m.points).1 * (calculateVelocity m.points).1 +
                                (calculateVelocity m.points).2 * (calculateVelocity m.points).2))
                              (jitterPassM o dt (calculateVelocity m.points) m)))))))))))))

/-- Frame facts: each pass preserves id, tier, baseRadius and springs. -/
theorem jitterPassW_frame (o : MathOracle) (dt : ℚ) (v : ℚ × ℚ) (m : SMochi) :
    (jitterPassW o dt v m).id = m.id ∧ (jitterPassW o dt v m).tier = m.tier ∧
    (jitterPassW o dt v m).baseRadius = m.baseRadius ∧
    (jitterPassW o dt v m).springs = m.springs := ⟨rfl, rfl, rfl, rfl⟩

theorem gravityPassW_frame (cfg : PhysicsConfig) (dt : ℚ) (m : SMochi) :
    (gravityPassW cfg dt m).id = m.id ∧ (gravityPassW cfg dt m).tier = m.tier ∧
    (gravityPassW cfg dt m).baseRadius = m.baseRadius ∧
    (gravityPassW cfg dt m).springs = m.springs := ⟨rfl, rfl, rfl, rfl⟩

theorem idlePassW_frame (o : MathOracle) (dt : ℚ) (c0 : ℚ × ℚ) (m : SMochi) :
    (idlePassW o dt c0 m).id = m.id ∧ (idlePassW o dt c0 m).tier = m.tier ∧
    (idlePassW o dt c0 m).baseRadius = m.baseRadius ∧
    (idlePassW o dt c0 m).springs = m.springs := ⟨rfl, rfl, rfl, rfl⟩

theorem springBodyPassW_frame (o : MathOracle) (cfg : PhysicsConfig) (dt : ℚ) (m : SMochi) :
    (springBodyPassW o cfg dt m).id = m.id ∧ (springBodyPassW o cfg dt m).tier = m.tier ∧
    (springBodyPassW o cfg dt m).baseRadius = m.baseRadius ∧
    (springBodyPassW o cfg dt m).springs = m.springs := ⟨rfl, rfl, rfl, rfl⟩

theorem pressurePassW_frame (o : MathOracle) (cfg : PhysicsConfig) (dt : ℚ) (m : SMochi) :
    (pressurePassW o cfg dt m).id = m.id ∧ (pressurePassW o cfg dt m).tier = m.tier ∧
    (pressurePassW o cfg dt m).baseRadius = m.baseRadius ∧
    (pressurePassW o cfg dt m).springs = m.springs := ⟨rfl, rfl, rfl, rfl⟩

theorem squishPassW_frame (cfg : PhysicsConfig) (dt : ℚ) (m : SMochi) :
    (squishPassW cfg dt m).id = m.id ∧ (squishPassW cfg dt m).tier = m.tier ∧
    (squishPassW cfg dt m).baseRadius = m.baseRadius ∧
    (squishPassW cfg dt m).springs = m.springs := ⟨rfl, rfl, rfl, rfl⟩

theorem posPassW_frame (o : MathOracle) (cfg : PhysicsConfig) (dt : ℚ) (m : SMochi) :
    (posPassW o cfg dt m).id = m.id ∧ (posPassW o cfg dt m).tier = m.tier ∧
    (posPassW o cfg dt m).baseRadius = m.baseRadius ∧
    (posPassW o cfg dt m).springs = m.springs := ⟨rfl, rfl, rfl, rfl⟩

theorem clampPassW_frame (o : MathOracle) (m : SMochi) :
    (clampPassW o m).id = m.id ∧ (clampPassW o m).tier = m.tier ∧
    (clampPassW o m).baseRadius = m.baseRadius ∧
    (clampPassW o m).springs = m.springs := ⟨rfl, rfl, rfl, rfl⟩

theorem angularPassW_frame (o : MathOracle) (dt : ℚ) (v : ℚ × ℚ) (m : SMochi) :
    (angularPassW o dt v m).id = m.id ∧ (angularPassW o dt v m).tier = m.tier ∧
    (angularPassW o dt v m).baseRadius = m.baseRadius ∧
    (angularPassW o dt v m).springs = m.springs := ⟨rfl, rfl, rfl, rfl⟩

theorem containerPassW_frame (cfg : PhysicsConfig) (c : Container) (m : SMochi) :
    (containerPassW cfg c m).1.id = m.id ∧ (containerPassW cfg c m).1.tier = m.tier ∧
    (containerPassW cfg c m).1.baseRadius = m.baseRadius ∧
    (containerPassW cfg c m).1.springs = m.springs := ⟨rfl, rfl, rfl, rfl⟩

theorem dimensionPassW_frame (o : MathOracle) (m : SMochi) :
    (dimensionPassW o m).id = m.id ∧ (dimensionPassW o m).tier = m.tier ∧
    (dimensionPassW o m).baseRadius = m.baseRadius ∧
    (dimensionPassW o m).springs = m.springs := ⟨rfl, rfl, rfl, rfl⟩

theorem radiusPassW_frame (o : MathOracle) (m : SMochi) :
    (radiusPassW o m).id = m.id ∧ (radiusPassW o m).tier = m.tier ∧
    (radiusPassW o m).baseRadius = m.baseRadius ∧
    (radiusPassW o m).springs = m.springs := ⟨rfl, rfl, rfl, rfl⟩

theorem centerRadiusPassW_frame (m : SMochi) :
    (centerRadiusPassW m).id = m.id ∧ (centerRadiusPassW m).tier = m.tier ∧
    (centerRadiusPassW m).baseRadius = m.baseRadius ∧
    (centerRadiusPassW m).springs = m.springs := ⟨rfl, rfl, rfl, rfl⟩

theorem sleepPass_frame (o : MathOracle) (m : SMochi) :
    (sleepPass o m).id = m.id ∧ (sleepPass o m).tier = m.tier ∧
    (sleepPass o m).baseRadius = m.baseRadius ∧
    (sleepPass o m).springs = m.springs := ⟨rfl, rfl, rfl, rfl⟩

theorem jitterPassM_frame (o : MathOracle) (dt : ℚ) (v : ℚ × ℚ) (m : Mochi) :
    (jitterPassM o dt v m).id = m.id ∧ (jitterPassM o dt v m).tier = m.tier ∧
    (jitterPassM o dt v m).baseRadius = m.baseRadius ∧
    (jitterPassM o dt v m).springs = m.springs := ⟨rfl, rfl, rfl, rfl⟩

theorem emotionPassM_frame (o : MathOracle) (dt s : ℚ) (m : Mochi) :
    (emotionPassM o dt s m).id = m.id ∧ (emotionPassM o dt s m).tier = m.tier ∧
    (emotionPassM o dt s m).baseRadius = m.baseRadius ∧
    (emotionPassM o dt s m).springs = m.springs := ⟨rfl, rfl, rfl, rfl⟩

theorem breathPassM_frame (o : MathOracle) (dt : ℚ) (m : Mochi) :
    (breathPassM o dt m).id = m.id ∧ (breathPassM o dt m).tier = m.tier ∧
    (breathPassM o dt m).baseRadius = m.baseRadius ∧
    (breathPassM o dt m).springs = m.springs := ⟨rfl, rfl, rfl, rfl⟩

theorem gravityPassM_frame (cfg : PhysicsConfig) (dt : ℚ) (m : Mochi) :
    (gravityPassM cfg dt m).id = m.id ∧ (gravityPassM cfg dt m).tier = m.tier ∧
    (gravityPassM cfg dt m).baseRadius = m.baseRadius ∧
    (gravityPassM cfg dt m).springs = m.springs := ⟨rfl, rfl, rfl, rfl⟩

theorem idlePassM_frame (o : MathOracle) (dt : ℚ) (c0 : ℚ × ℚ) (m : Mochi) :
    (idlePassM o dt c0 m).id = m.id ∧ (idlePassM o dt c0 m).tier = m.tier ∧
    (idlePassM o dt c0 m).baseRadius = m.baseRadius ∧
    (idlePassM o dt c0 m).springs = m.springs := ⟨rfl, rfl, rfl, rfl⟩

theorem springBodyPassM_frame (o : MathOracle) (cfg : PhysicsConfig) (dt : ℚ) (m : Mochi) :
    (springBodyPassM o cfg dt m).id = m.id ∧ (springBodyPassM o cfg dt m).tier = m.tier ∧
    (springBodyPassM o cfg dt m).baseRadius = m.baseRadius ∧
    (springBodyPassM o cfg dt m).springs = m.springs := ⟨rfl, rfl, rfl, rfl⟩

theorem pressurePassM_frame (o : MathOracle) (cfg : PhysicsConfig) (dt : ℚ) (m : Mochi) :
    (pressurePassM o cfg dt m).id = m.id ∧ (pressurePassM o cfg dt m).tier = m.tier ∧
    (pressurePassM o cfg dt m).baseRadius = m.baseRadius ∧
    (pressurePassM o cfg dt m).springs = m.springs := ⟨rfl, rfl, rfl, rfl⟩

theorem squishPassM_frame (cfg : PhysicsConfig) (dt : ℚ) (m : Mochi) :
    (squishPassM cfg dt m).id = m.id ∧ (squishPassM cfg dt m).tier = m.tier ∧
    (squishPassM cfg dt m).baseRadius = m.baseRadius ∧
    (squishPassM cfg dt m).springs = m.springs := ⟨rfl, rfl, rfl, rfl⟩

theorem posPassM_frame (o : MathOracle) (cfg : PhysicsConfig) (dt : ℚ) (m : Mochi) :
    (posPassM o cfg dt m).id = m.id ∧ (posPassM o cfg dt m).tier = m.tier ∧
    (posPassM o cfg dt m).baseRadius = m.baseRadius ∧
    (posPassM o cfg dt m).springs = m.springs := ⟨rfl, rfl, rfl, rfl⟩

theorem angularPassM_frame (o : MathOracle) (dt : ℚ) (v : ℚ × ℚ) (m : Mochi) :
    (angularPassM o dt v m).id = m.id ∧ (angularPassM o dt v m).tier = m.tier ∧
    (angularPassM o dt v m).baseRadius = m.baseRadius ∧
    (angularPassM o dt v m).springs = m.springs := ⟨rfl, rfl, rfl, rfl⟩

theorem containerPassM_frame (cfg : PhysicsConfig) (c : Container) (m : Mochi) :
    (containerPassM cfg c m).id = m.id ∧ (containerPassM cfg c m).tier = m.tier ∧
    (containerPassM cfg c m).baseRadius = m.baseRadius ∧
    (containerPassM cfg c m).springs = m.springs := ⟨rfl, rfl, rfl, rfl⟩

theorem dimensionPassM_frame (o : MathOracle) (m : Mochi) :
    (dimensionPassM o m).id = m.id ∧ (dimensionPassM o m).tier = m.tier ∧
    (dimensionPassM o m).baseRadius = m.baseRadius ∧
    (dimensionPassM o m).springs = m.springs := ⟨rfl, rfl, rfl, rfl⟩

theorem radiusPassM_frame (o : MathOracle) (m : Mochi) :
    (radiusPassM o m).id = m.id ∧ (radiusPassM o m).tier = m.tier ∧
    (radiusPassM o m).baseRadius = m.baseRadius ∧
    (radiusPassM o m).springs = m.springs := ⟨rfl, rfl, rfl, rfl⟩

theorem centerRadiusPassM_frame (m : Mochi) :
    (centerRadiusPassM m).id = m.id ∧ (centerRadiusPassM m).tier = m.tier ∧
    (centerRadiusPassM m).baseRadius = m.baseRadius ∧
    (centerRadiusPassM m).springs = m.springs := ⟨rfl, rfl, rfl, rfl⟩

/-- C10: one integration sub-step, on either path and for every oracle,
configuration, container, step size and body, leaves the body's id, tier,
baseRadius and entire spring set (index pairs, rest lengths, stiffness
coefficients) unchanged; integration mutates only kinematic and animation
state, never identity or structure. -/
theorem C10_substep_preserves_identity_and_structure (o : MathOracle)
    (cfg : PhysicsConfig) (c : Container) (dt : ℚ) (ms : SMochi) (mm : Mochi) :
    ((updateMochiPhysics o cfg c dt ms).1.id = ms.id ∧
      (updateMochiPhysics o cfg c dt ms).1.tier = ms.tier ∧
      (updateMochiPhysics o cfg c dt ms).1.baseRadius = ms.baseRadius ∧
      (updateMochiPhysics o cfg c dt ms).1.springs = ms.springs) ∧
    ((updateMochi o cfg c dt mm).id = mm.id ∧
      (updateMochi o cfg c dt mm).tier = mm.tier ∧
      (updateMochi o cfg c dt mm).baseRadius = mm.baseRadius ∧
      (updateMochi o cfg c dt mm).springs = mm.springs) := by
  constructor
  · unfold updateMochiPhysics
    by_cases h : ms.merging = true
    · rw [if_pos h]
      exact ⟨rfl, rfl, rfl, rfl⟩
    · rw [if_neg h]
      simp only [sleepPass_frame, centerRadiusPassW_frame, radiusPassW_frame,
        dimensionPassW_frame, containerPassW_frame, angularPassW_frame,
        clampPassW_frame, posPassW_frame, squishPassW_frame, pressurePassW_frame,
        springBodyPassW_frame, idlePassW_frame, gravityPassW_frame, jitterPassW_frame,
        and_self]
  · unfold updateMochi
    by_cases h : mm.merging = true
    · rw [if_pos h]
      exact ⟨rfl, rfl, rfl, rfl⟩
    · rw [if_neg h]
      simp only [centerRadiusPassM_frame, radiusPassM_frame, dimensionPassM_frame,
        containerPassM_frame, angularPassM_frame, posPassM_frame, squishPassM_frame,
        pressurePassM_frame, springBodyPassM_frame, idlePassM_frame, gravityPassM_frame,
        breathPassM_frame, emotionPassM_frame, jitterPassM_frame, and_self]

/-- The worker's hard per-vertex velocity clamp of physics-worker.ts lines
345-354, over the exact reals (the one pass whose correctness depends on
the true square-root value, so it is mirrored in ℝ with Real.sqrt): scale
the velocity back to magnitude 25 when it exceeds 25. -/
noncomputable def clampPointR (vx vy : ℝ) : ℝ × ℝ :=
  let speed := Real.sqrt (vx * vx + vy * vy)
  if speed > 25 then (vx * (25 / speed), vy * (25 / speed)) else (vx, vy)

theorem clampPointR_bound (vx vy : ℝ) :
    (clampPointR vx vy).1 ^ 2 + (clampPointR vx vy).2 ^ 2 ≤ 625 := by
  unfold clampPointR
  have h0 : (0 : ℝ) ≤ vx * vx + vy * vy := by nlinarith [sq_nonneg vx, sq_nonneg vy]
  set s := Real.sqrt (vx * vx + vy * vy) with hs
  have hsq : s * s = vx * vx + vy * vy := Real.mul_self_sqrt h0
  have hs0 : 0 ≤ s := Real.sqrt_nonneg _
  by_cases h : s > 25
  · rw [if_pos h]
    have hne : s ≠ 0 := by intro h9; rw [h9] at h; norm_num at h
    have hne2 : s * s ≠ 0 := mul_ne_zero hne hne
    have key : (vx * (25 / s)) ^ 2 + (vy * (25 / s)) ^ 2 = 625 := by
      have step1 : (vx * (25 / s)) ^ 2 + (vy * (25 / s)) ^ 2 =
          (vx * vx + vy * vy) * 625 / (s * s) := by ring
      rw [step1, ← hsq, mul_comm (s * s) 625, mul_div_assoc, div_self hne2,
        mul_one]
    simp only
    rw [key]
  · rw [if_neg h]
    push_neg at h
    simp only
    nlinarith [hsq, h, hs0]

/-- Oracle used for the concrete main-thread evaluation below: on the
traced input every consultation is exact — sin is consulted only at 0, pow
only at exponent dt = 1 (where x^1 = x for every base), cos never, and
sqrt only at the perfect squares 10000 and 4/625. -/
def mainOracle : MathOracle where
  sin := fun _ => 0
  cos := fun _ => 0
  pow := fun b _ => b
  sqrt := Rat.sqrt

/-- Tier-0 body moving right at speed 100: base radius 0.1, four vertices
0.08 from the center (160, 200), empty spring list, breathPhase -0.02 so
the breathing phase is exactly 0 inside the step. -/
def unclampedBody : Mochi :=
  { id := 7, tier := 0,
    points :=
      [ { x := 160.08, y := 200, vx := 100, vy := 0, ox := 0, oy := 0 },
        { x := 159.92, y := 200, vx := 100, vy := 0, ox := 0, oy := 0 },
        { x := 160, y := 200.08, vx := 100, vy := 0, ox := 0, oy := 0 },
        { x := 160, y := 199.92, vx := 100, vy := 0, ox := 0, oy := 0 } ],
    springs := [], cx := 160, cy := 200, vx := 100, vy := 0, radius := 0.1,
    baseRadius := 0.1, color := default, grabbed := false,
    emotion := "happy", emotionTimer := 0, squishAmount := 0,
    impactVelocity := 0, wobblePhase := 0, wobbleIntensity := 0,
    breathPhase := -0.02, lastY := 0, merging := false, mergeTimer := 0,
    isDropping := false, hasLanded := false, settleTimer := 0,
    blinkTimer := 0, blinkState := 0, lookDirection := 0, lookTimer := 0,
    idleTimer := 0, jitterAmount := 0, prevVx := 0, prevVy := 0 }

/-- Container whose floor and walls are far from the evaluated body. -/
def farContainer : Container :=
  { x := 0, y := 0, width := 100000, height := 100000, wallThickness := 15,
    overflowLine := 60 }


/-- Rat.sqrt 10000 = 100 exactly. -/
theorem uSq1 : Rat.sqrt 10000 = 100 := ratSqrt_exact _ 100 (by norm_num) (by norm_num)

/-- Rat.sqrt (4/625) = 2/25 exactly (the vertex offset 0.08). -/
theorem uSq2 : Rat.sqrt (4/625) = 2/25 := ratSqrt_exact _ (2/25) (by norm_num) (by norm_num)

theorem uRange4 : List.range 4 = [0, 1, 2, 3] := by decide

/-- The mean velocity of unclampedBody. -/
theorem uVel : calculateVelocity unclampedBody.points = (100, 0) := by
  norm_num [calculateVelocity, unclampedBody]

/-- The center of unclampedBody. -/
theorem uCen : calculateCenter unclampedBody.points = (160, 200) := by
  norm_num [calculateCenter, unclampedBody]

/-- unclampedBody after the jitter pass. -/
def uStage1 : Mochi :=
  { unclampedBody with lastY := 200, jitterAmount := 0, prevVx := 100, prevVy := 0 }

/-- After the emotion pass: speed 100 > 15 picks the flying emotion. -/
def uStage2 : Mochi :=
  { uStage1 with emotion := "flying", emotionTimer := 15 }

/-- After the breath pass: the breathing phase reaches exactly 0. -/
def uStage3 : Mochi :=
  { uStage2 with breathPhase := 0, wobbleIntensity := 0 }

/-- The vertex list after gravity: vy = 0.6. -/
def uPts1 : List Point :=
  [ { x := 160.08, y := 200, vx := 100, vy := 3/5, ox := 0, oy := 0 },
    { x := 159.92, y := 200, vx := 100, vy := 3/5, ox := 0, oy := 0 },
    { x := 160, y := 200.08, vx := 100, vy := 3/5, ox := 0, oy := 0 },
    { x := 160, y := 199.92, vx := 100, vy := 3/5, ox := 0, oy := 0 } ]

def uStage4 : Mochi :=
  { uStage3 with points := uPts1 }

/-- After the idle pass: only the wobble phase advances (all vertex-center
distances are 0.08 ≤ 0.1 and the wobble intensity is 0). -/
def uStage5 : Mochi :=
  { uStage4 with wobblePhase := 3/25 }

/-- The vertex list after the damped position update: velocities scaled by
0.9 to (90, 0.54), speed over 90, and positions advanced. -/
def uPts2 : List Point :=
  [ { x := 250.08, y := 200.54, vx := 90, vy := 27/50, ox := 0, oy := 0 },
    { x := 249.92, y := 200.54, vx := 90, vy := 27/50, ox := 0, oy := 0 },
    { x := 250, y := 200.62, vx := 90, vy := 27/50, ox := 0, oy := 0 },
    { x := 250, y := 200.46, vx := 90, vy := 27/50, ox := 0, oy := 0 } ]

def uStage6 : Mochi :=
  { uStage5 with points := uPts2 }

/-- The final body of the sub-step: center and mean velocity refreshed. -/
def uFinal : Mochi :=
  { uStage6 with cx := 250, cy := 10027/50, vx := 90, vy := 27/50 }

theorem uStep1 : jitterPassM mainOracle 1 (100, 0) unclampedBody = uStage1 := by
  norm_num [jitterPassM, jitterCalc, mainOracle, unclampedBody, uStage1, uSq1]

theorem uStep2 : emotionPassM mainOracle 1 100 uStage1 = uStage2 := by
  norm_num [emotionPassM, mainOracle, calculateCenter, uStage1, uStage2,
    unclampedBody, uSq2]

theorem uStep3 : breathPassM mainOracle 1 uStage2 = uStage3 := by
  norm_num [breathPassM, mainOracle, uStage2, uStage3, uStage1, unclampedBody]

theorem uStep4 : gravityPassM defaultConfig 1 uStage3 = uStage4 := by
  norm_num [gravityPassM, gravityPts, defaultConfig, uStage3, uStage4, uStage2,
    uStage1, unclampedBody, uPts1]

theorem uStep5 : idlePassM mainOracle 1 (160, 200) uStage4 = uStage5 := by
  norm_num [idlePassM, idlePts, mainOracle, uStage4, uStage5, uStage3, uStage2,
    uStage1, unclampedBody, uPts1, uSq2, List.mapIdx_cons, List.mapIdx_nil]

theorem uStep6 : springBodyPassM mainOracle defaultConfig 1 uStage5 = uStage5 := by
  norm_num [springBodyPassM, springPassM, applySpringM, uStage5, uStage4, uStage3,
    uStage2, uStage1, unclampedBody, uRange4]

theorem uStep7 : pressurePassM mainOracle defaultConfig 1 uStage5 = uStage5 := by
  norm_num [pressurePassM, mainOracle, calculateCenter, uStage5, uStage4, uStage3,
    uStage2, uStage1, unclampedBody, uPts1, uSq2]

theorem uStep8 : squishPassM defaultConfig 1 uStage5 = uStage5 := by
  norm_num [squishPassM, defaultConfig, uStage5, uStage4, uStage3, uStage2,
    uStage1, unclampedBody]

theorem uStep9 : posPassM mainOracle defaultConfig 1 uStage5 = uStage6 := by
  norm_num [posPassM, posUpdatePts, mainOracle, defaultConfig, uStage6, uStage5,
    uStage4, uStage3, uStage2, uStage1, unclampedBody, uPts1, uPts2]

theorem uStep10 : angularPassM mainOracle 1 (100, 0) uStage6 = uStage6 := by
  norm_num [angularPassM, angularPts, mainOracle, calculateCenter, uStage6,
    uStage5, uStage4, uStage3, uStage2, uStage1, unclampedBody, uPts2, uSq1, uSq2]

theorem uStep11 : containerPassM defaultConfig farContainer uStage6 = uStage6 := by
  norm_num [containerPassM, containerStepM, floorPointM, defaultConfig,
    farContainer, uStage6, uStage5, uStage4, uStage3, uStage2, uStage1,
    unclampedBody, uPts2]

theorem uStep12 : dimensionPassM mainOracle uStage6 = uStage6 := by
  norm_num [dimensionPassM, dimensionPts, mainOracle, uStage6, uStage5, uStage4,
    uStage3, uStage2, uStage1, unclampedBody, uPts2, List.min?, List.max?,
    min_def, max_def]

theorem uStep13 : radiusPassM mainOracle uStage6 = uStage6 := by
  norm_num [radiusPassM, radiusPts, mainOracle, calculateCenter, uStage6, uStage5,
    uStage4, uStage3, uStage2, uStage1, unclampedBody, uPts2, uSq2,
    List.mapIdx_cons, List.mapIdx_nil]

theorem uStep14 : centerRadiusPassM uStage6 = uFinal := by
  norm_num [centerRadiusPassM, calculateCenter, calculateVelocity, uStage6, uFinal,
    uStage5, uStage4, uStage3, uStage2, uStage1, unclampedBody, uPts2]

/-- Full evaluation of one main-thread sub-step on unclampedBody: every
vertex ends the sub-step at velocity (90, 0.54), speed far above 25. -/
theorem unclamped_eval :
    updateMochi mainOracle defaultConfig farContainer 1 unclampedBody = uFinal := by
  have hm : ¬(unclampedBody.merging = true) := by simp [unclampedBody]
  have hsp : mainOracle.sqrt ((100 : ℚ) * 100 + 0 * 0) = 100 := by
    norm_num [mainOracle, uSq1]
  unfold updateMochi
  rw [if_neg hm, uVel, uCen]
  dsimp only
  rw [hsp, uStep1, uStep2, uStep3, uStep4, uStep5, uStep6, uStep7, uStep8,
    uStep9, uStep10, uStep11, uStep12, uStep13, uStep14]


/-- C6: the claim says a hard per-vertex velocity-magnitude clamp at 25 is
applied in each integration sub-step in BOTH execution paths. The worker
half is true: the worker clamp pass (clampPointR over the exact reals)
leaves every vertex with squared speed at most 625. But the main-thread
path has no such pass: unclampedBody is non-merging, and after one
main-thread sub-step (physics.ts updateMochi — its cited lines 502-509 are
the position update, not a clamp) every vertex still has velocity
(90, 27/50), whose squared magnitude exceeds 625 = 25 * 25. -/
theorem C6_clamp_missing_on_main_path :
    (∀ vx vy : ℝ, (clampPointR vx vy).1 ^ 2 + (clampPointR vx vy).2 ^ 2 ≤ 625) ∧
    unclampedBody.merging = false ∧
    ((updateMochi mainOracle defaultConfig farContainer 1 unclampedBody).points.map
        fun p => (p.vx, p.vy)) =
      [(90, 27/50), (90, 27/50), (90, 27/50), (90, 27/50)] ∧
    (25 : ℚ) * 25 < 90 * 90 + 27/50 * (27/50) := by
  refine ⟨clampPointR_bound, rfl, ?_, by norm_num⟩
  rw [unclamped_eval]
  norm_num [uFinal, uStage6, uPts2]

end Mochii
